import Mathlib

/-!
# TalkToExcel — formal model of the claim-relevant operations

A shallow embedding of the parts of the TalkToExcel code base that the
verified claims touch: the shared condition evaluator
(`src/operations/crud_handlers.py` `DataQueryHandler._evaluate_condition`,
identical in `src/operations/query_operations.py`), the query validator,
the deletion handler, the risk assessor, the backup retention logic, the
template registry, the confirmation-response parser, outlier detection
and chart-type detection.

Python cell values are modelled by `Value`: `none` (Python `None`),
`num` (Python `int`/`float`, modelled as a rational — every numeric
literal the claims exercise is exactly representable), and `str`.
Python exceptions are modelled with `Except`; machine-level concerns
(file IO failure, float rounding of string rendering) are outside the
model and noted where they are abstracted.
-/

namespace TalkToExcel

/-- A Python value as stored in a worksheet cell or condition. -/
inductive Value where
  | none : Value
  | num : ℚ → Value
  | str : String → Value
deriving DecidableEq, Repr

/-- Python `==` across the modelled value types: numbers compare
numerically, strings textually, `None` equals only `None`, and values of
different types are unequal (no exception is raised). -/
def pyEq : Value → Value → Bool
  | Value.none, Value.none => true
  | Value.num a, Value.num b => a == b
  | Value.str a, Value.str b => a == b
  | _, _ => false

/-- Python ordering comparison (`<`): defined within numbers and within
strings, a `TypeError` (modelled as `Except.error`) for any mixed pair
or any pair involving `None`. -/
def pyOrd : Value → Value → Except Unit Ordering
  | Value.num a, Value.num b => Except.ok (compare a b)
  | Value.str a, Value.str b => Except.ok (compare a b)
  | _, _ => Except.error ()

/-- Python `str()` of a modelled value.  The rendering of numbers is
abstracted (the model does not distinguish `int` from `float`); no
verified claim depends on the exact digits produced. -/
def pyStr : Value → String
  | Value.none => "None"
  | Value.num q => toString q
  | Value.str s => s

/-- Substring test on character lists: does `needle` occur inside the
list? (Python `needle in hay`; the empty needle always occurs.) -/
def charsContain (needle : List Char) : List Char → Bool
  | [] => needle.isEmpty
  | c :: rest => needle.isPrefixOf (c :: rest) || charsContain needle rest

/-- Python `needle in hay` on strings. -/
def strContains (hay needle : String) : Bool :=
  charsContain needle.toList hay.toList

/-- Python `str.lower()` (ASCII case mapping; every input the claims
exercise is ASCII). -/
def pyLower (s : String) : String := String.mk (s.data.map Char.toLower)

/-- Python `str.strip()`: drop leading and trailing whitespace. -/
def pyStrip (s : String) : String :=
  String.mk (((s.data.dropWhile Char.isWhitespace).reverse.dropWhile
    Char.isWhitespace).reverse)

/-- Python `hay.startswith(needle)`. -/
def pyStartsWith (hay needle : String) : Bool := needle.data.isPrefixOf hay.data

/-- Python `hay.endswith(needle)`. -/
def pyEndsWith (hay needle : String) : Bool := needle.data.isSuffixOf hay.data

/-- The body of `_evaluate_condition`'s `try` block
(`crud_handlers.py:868-902`, identically `query_operations.py:345-369`):
each operator case, with comparisons that raise `TypeError` surfacing as
`Except.error`, and the final `else: return False` for any operator
outside the nine supported ones. -/
def evalCondCore (recordValue : Value) (operator : String) (conditionValue : Value) :
    Except Unit Bool :=
  if operator = "=" then Except.ok (pyEq recordValue conditionValue)
  else if operator = "!=" then Except.ok (!pyEq recordValue conditionValue)
  else if operator = ">" then
    (pyOrd recordValue conditionValue).map (fun o => o == Ordering.gt)
  else if operator = ">=" then
    (pyOrd recordValue conditionValue).map (fun o => o != Ordering.lt)
  else if operator = "<" then
    (pyOrd recordValue conditionValue).map (fun o => o == Ordering.lt)
  else if operator = "<=" then
    (pyOrd recordValue conditionValue).map (fun o => o != Ordering.gt)
  else if operator = "contains" then
    Except.ok (strContains (pyLower (pyStr recordValue)) (pyLower (pyStr conditionValue)))
  else if operator = "starts_with" then
    Except.ok (pyStartsWith (pyLower (pyStr recordValue)) (pyLower (pyStr conditionValue)))
  else if operator = "ends_with" then
    Except.ok (pyEndsWith (pyLower (pyStr recordValue)) (pyLower (pyStr conditionValue)))
  else Except.ok false

/-- `_evaluate_condition`: the `try` body with
`except (TypeError, ValueError): return False` — a raised comparison
yields `false`. -/
def evaluateCondition (recordValue : Value) (operator : String) (conditionValue : Value) :
    Bool :=
  match evalCondCore recordValue operator conditionValue with
  | Except.ok b => b
  | Except.error _ => false

/-- The nine operator strings `_evaluate_condition` recognises. -/
def supportedOperators : List String :=
  ["=", "!=", ">", ">=", "<", "<=", "contains", "starts_with", "ends_with"]

/-! ## Records, sheets and filter conditions -/

/-- A row record as built by `_extract_sheet_data`: a Python dict from
header name to cell value, modelled as the assignment list in column
order (for duplicate headers the later assignment wins, see `dictGet`). -/
abbrev Record := List (String × Value)

/-- Python dict lookup on a `Record`: the last assignment to the key
wins; `Option.none` models `key not in record`. -/
def dictGet (r : Record) (k : String) : Option Value :=
  ((r.filter (fun p => p.1 == k)).getLast?).map Prod.snd

/-- The record built for one worksheet row
(`for col_idx, header in enumerate(headers, 1): record[header] = cell`);
a cell beyond the row's stored width reads as `None`. -/
def recordOf (headers : List String) (row : List Value) : Record :=
  headers.enum.map (fun p => (p.2, row.getD p.1 Value.none))

/-- `has_data` for a built record: some cell value is not `None`. -/
def recordHasData (r : Record) : Bool :=
  r.any (fun p => p.2 != Value.none)

/-- `_extract_sheet_data` over data rows 2..max_row (no `max_rows` cap,
as in every call site the claims cover): one record per row, keeping
only records with at least one non-empty cell. -/
def extractSheetData (headers : List String) (dataRows : List (List Value)) :
    List Record :=
  (dataRows.map (recordOf headers)).filter recordHasData

/-- One filter condition value: either a plain value (simple equality)
or a dict `{"operator": op, "value": v}` (`operator` defaults to `"="`
and `value` to `None` when absent, which the embedding writes out). -/
inductive Cond where
  | simple : Value → Cond
  | complex : String → Value → Cond
deriving DecidableEq, Repr

/-- A conditions dict, in insertion order. -/
abbrev Conditions := List (String × Cond)

/-- Evaluation of one condition against a record value. -/
def condHolds (recordValue : Value) : Cond → Bool
  | Cond.simple v => pyEq recordValue v
  | Cond.complex op v => evaluateCondition recordValue op v

/-- The per-record match loop shared by `_apply_filters`,
`_preview_by_conditions` and `_delete_by_conditions`: every condition
column must be present in the record and its condition must hold. -/
def recordMatches (conds : Conditions) (r : Record) : Bool :=
  conds.all (fun p =>
    match dictGet r p.1 with
    | Option.none => false
    | Option.some rv => condHolds rv p.2)

/-- A worksheet: row 1 holds the headers, rows 2..max_row the data. -/
structure Sheet where
  headers : List String
  dataRows : List (List Value)
deriving DecidableEq, Repr

/-- `sheet.max_row`: the header row plus the data rows. -/
def sheetMaxRow (s : Sheet) : Nat := s.dataRows.length + 1

/-- A workbook: named sheets. -/
abbrev Workbook := List (String × Sheet)

/-- `get_sheet_names()`. -/
def wbSheetNames (wb : Workbook) : List String := wb.map Prod.fst

/-- `get_sheet(name)`. -/
def getSheet (wb : Workbook) (name : String) : Option Sheet :=
  ((wb.find? (fun p => p.1 == name))).map Prod.snd

/-- Replace a named sheet after a mutation. -/
def setSheet (wb : Workbook) (name : String) (s : Sheet) : Workbook :=
  wb.map (fun p => if p.1 == name then (name, s) else p)

/-- Result record shared by the validators (`success`, `message`). -/
structure OperationResult where
  success : Bool
  message : String
deriving DecidableEq, Repr

/-! ## Query validation (`DataQueryHandler._validate_query`) -/

/-- `QueryData` (`crud_handlers.py:463-471`), restricted to the fields
`_validate_query` reads. -/
structure QueryData where
  target_sheet : String
  sort_order : String := "asc"
  limit : Option Int := Option.none
deriving DecidableEq, Repr

/-- `_validate_query` (`crud_handlers.py:738-782`): target sheet set and
existing, sort order `asc`/`desc`, limit present, ≥ 1 and ≤ 10000. -/
def validateQuery (sheetNamesList : List String) (q : QueryData) : OperationResult :=
  if q.target_sheet = "" then
    { success := false, message := "Target sheet not specified" }
  else if q.target_sheet ∉ sheetNamesList then
    { success := false
      message := "Sheet '" ++ q.target_sheet ++ "' does not exist" }
  else if q.sort_order ∉ ["asc", "desc"] then
    { success := false, message := "Sort order must be 'asc' or 'desc'" }
  else if (match q.limit with
           | Option.some l => decide (l < 1)
           | Option.none => false) then
    { success := false, message := "Limit must be greater than 0" }
  else if (match q.limit with
           | Option.some l => decide (l > 10000)
           | Option.none => true) then
    { success := false
      message := "Query result limited to 10000 rows for safety. Please add a limit parameter." }
  else
    { success := true, message := "Validation passed" }

/-! ## Deletion (`DataDeletionHandler`)

The openpyxl cell-range machinery used only by the `target_range` path
is abstracted behind two parameters: `resolveRange` gives the
`(coordinate, value)` cells of a range reference (`Option.none` models
an invalid reference raising inside `sheet[ref]`), and `clearRange`
gives the sheet after the clear together with the number of cells
cleared.  Every theorem quantifies over both, so nothing proved depends
on their behaviour. -/

/-- Abstract resolver for `sheet[target_range]`. -/
abbrev RangeResolver := Sheet → String → Option (List (String × Value))

/-- Abstract executor for clearing a cell range. -/
abbrev RangeClear := Sheet → String → Sheet × Nat

/-- `DeletionData` (`crud_handlers.py:1694-1703`). -/
structure DeletionData where
  target_sheet : String
  conditions : Option Conditions := Option.none
  target_rows : Option (List Nat) := Option.none
  target_range : Option String := Option.none
  unique_identifier : Option Conditions := Option.none
  confirmation_required : Bool := true
deriving DecidableEq, Repr

/-- `DeletionResult` (`crud_handlers.py:1706-1721`), with the
`__post_init__` `None → []` defaults built in. -/
structure DeletionResult where
  success : Bool
  message : String
  affected_rows : Nat := 0
  deleted_data : List Record := []
  warnings : List String := []
  requires_confirmation : Bool := false
  confirmation_prompt : Option String := Option.none
deriving DecidableEq, Repr

/-- `_validate_deletion_data`. -/
def validateDeletionData (wb : Workbook) (d : DeletionData) : OperationResult :=
  if d.target_sheet = "" then
    { success := false, message := "Target sheet not specified" }
  else if d.target_sheet ∉ wbSheetNames wb then
    { success := false
      message := "Sheet '" ++ d.target_sheet ++ "' does not exist" }
  else
    let targetsSpecified :=
      (if d.target_rows.isSome then 1 else 0) +
      (if d.target_range.isSome then 1 else 0) +
      (if d.conditions.isSome then 1 else 0) +
      (if d.unique_identifier.isSome then 1 else 0)
    if targetsSpecified = 0 then
      { success := false
        message := "No deletion target specified (rows, range, conditions, or unique identifier)" }
    else if targetsSpecified > 1 then
      { success := false
        message := "Multiple deletion targets specified. Please specify only one." }
    else match d.target_rows with
      | Option.some rows =>
          match rows.find? (fun n => n < 2) with
          | Option.some n =>
              { success := false
                message := "Cannot delete header row or row " ++ toString n ++
                  ". Row numbers must be >= 2." }
          | Option.none => { success := true, message := "Validation passed" }
      | Option.none => { success := true, message := "Validation passed" }

/-- `_preview_specific_rows`: collect the records of the valid row
numbers (row 2..max_row), skipping the rest. -/
def previewSpecificRows (s : Sheet) (rowNumbers : List Nat) : DeletionResult :=
  let valid := rowNumbers.filter (fun n => 2 ≤ n && n ≤ sheetMaxRow s)
  let deletedData := valid.map (fun n => recordOf s.headers (s.dataRows.getD (n - 2) []))
  { success := true
    message := "Would delete " ++ toString valid.length ++ " rows"
    affected_rows := valid.length
    deleted_data := deletedData }

/-- `_preview_specific_range`: count non-empty cells; `affected_rows`
is 0 because range deletion clears cells rather than removing rows. -/
def previewSpecificRange (resolveRange : RangeResolver) (s : Sheet) (ref : String) :
    DeletionResult :=
  match resolveRange s ref with
  | Option.none =>
      { success := false, message := "Invalid range reference: " ++ ref }
  | Option.some cells =>
      let nonEmpty := cells.filter (fun c => c.2 != Value.none)
      { success := true
        message := "Would clear " ++ toString nonEmpty.length ++ " cells in range " ++ ref
        affected_rows := 0
        deleted_data := nonEmpty.map (fun c => [("cell", Value.str c.1), ("value", c.2)]) }

/-- `_preview_by_conditions`: the records of `_extract_sheet_data` that
match the conditions. -/
def previewByConditions (s : Sheet) (conds : Conditions) : DeletionResult :=
  let matching := (extractSheetData s.headers s.dataRows).filter (recordMatches conds)
  { success := true
    message := "Would delete " ++ toString matching.length ++ " rows matching conditions"
    affected_rows := matching.length
    deleted_data := matching }

/-- `_preview_deletion`: dispatch over the four target kinds. -/
def previewDeletion (resolveRange : RangeResolver) (s : Sheet) (d : DeletionData) :
    DeletionResult :=
  match d.target_rows with
  | Option.some rows => previewSpecificRows s rows
  | Option.none =>
    match d.target_range with
    | Option.some ref => previewSpecificRange resolveRange s ref
    | Option.none =>
      match d.conditions with
      | Option.some conds => previewByConditions s conds
      | Option.none =>
        match d.unique_identifier with
        | Option.some uid => previewByConditions s uid
        | Option.none =>
            { success := false
              message := "No valid deletion target specified for preview" }

/-- The preview pass exactly as `delete_data` runs it: after the sheet
lookup, on the found sheet. -/
def deleteDataPreview (resolveRange : RangeResolver) (wb : Workbook) (d : DeletionData) :
    DeletionResult :=
  match getSheet wb d.target_sheet with
  | Option.none =>
      { success := false, message := "Sheet '" ++ d.target_sheet ++ "' not found" }
  | Option.some s => previewDeletion resolveRange s d

/-- `sheet.delete_rows(n)` for a data-row number `n ≥ 2` (the only row
numbers the handler ever deletes): remove data row `n - 2`. -/
def deleteSheetRow (s : Sheet) (n : Nat) : Sheet :=
  { s with dataRows := s.dataRows.eraseIdx (n - 2) }

/-- Descending sort (`sorted(xs, reverse=True)`) on row numbers. -/
def sortDescNat (l : List Nat) : List Nat :=
  l.insertionSort (fun a b => b ≤ a)

/-- The `_delete_specific_rows` loop: process one row number at a time,
re-checking `2 ≤ n ≤ max_row` against the current sheet, counting
performed deletions. -/
def deleteRowsLoop : List Nat → Sheet → Nat → Sheet × Nat
  | [], s, count => (s, count)
  | n :: rest, s, count =>
      if n < 2 || sheetMaxRow s < n then deleteRowsLoop rest s count
      else deleteRowsLoop rest (deleteSheetRow s n) (count + 1)

/-- `_delete_specific_rows`. -/
def deleteSpecificRows (s : Sheet) (rowNumbers : List Nat) : DeletionResult × Sheet :=
  let preview := previewSpecificRows s rowNumbers
  let step := deleteRowsLoop (sortDescNat rowNumbers) s 0
  ({ success := true
     message := "Successfully deleted " ++ toString step.2 ++ " rows"
     affected_rows := step.2
     deleted_data := preview.deleted_data }, step.1)

/-- `_delete_specific_range`: preview, then clear the range (abstract). -/
def deleteSpecificRange (resolveRange : RangeResolver) (clearRange : RangeClear)
    (s : Sheet) (ref : String) : DeletionResult × Sheet :=
  let preview := previewSpecificRange resolveRange s ref
  if !preview.success then (preview, s)
  else
    let step := clearRange s ref
    ({ success := true
       message := "Successfully cleared " ++ toString step.2 ++ " cells in range " ++ ref
       affected_rows := 0
       deleted_data := preview.deleted_data }, step.1)

/-- The matching row numbers of `_delete_by_conditions`
(`for row_idx, record in enumerate(raw_data, 2)`). -/
def matchingRowNumbers (records : List Record) (conds : Conditions) : List Nat :=
  ((records.enum).filter (fun p => recordMatches conds p.2)).map (fun p => p.1 + 2)

/-- `_delete_by_conditions` (`crud_handlers.py:2164-2249`). -/
def deleteByConditions (s : Sheet) (conds : Conditions) : DeletionResult × Sheet :=
  let preview := previewByConditions s conds
  if preview.affected_rows = 0 then
    ({ success := true
       message := "No rows matched the specified conditions"
       affected_rows := 0 }, s)
  else
    let rawData := extractSheetData s.headers s.dataRows
    let rowNums := sortDescNat (matchingRowNumbers rawData conds)
    let s' := rowNums.foldl deleteSheetRow s
    ({ success := true
       message := "Successfully deleted " ++ toString rowNums.length ++ " rows matching conditions"
       affected_rows := rowNums.length
       deleted_data := preview.deleted_data }, s')

/-- `_delete_by_unique_identifier`: conditions deletion plus a warning
when more than one row fell to a supposedly unique identifier. -/
def deleteByUniqueIdentifier (s : Sheet) (uid : Conditions) : DeletionResult × Sheet :=
  let step := deleteByConditions s uid
  if step.1.success && step.1.affected_rows > 1 then
    ({ step.1 with warnings := step.1.warnings ++
        ["Unique identifier matched " ++ toString step.1.affected_rows ++
         " rows. Consider using a more specific identifier."] }, step.2)
  else step

/-- One sample line of the confirmation prompt
(`  Row {i+1}: {key}: {value}, ...`, first three columns). -/
def recordSampleLine (i : Nat) (r : Record) : String :=
  "  Row " ++ toString (i + 1) ++ ": " ++
    String.intercalate ", " ((r.take 3).map (fun p => p.1 ++ ": " ++ pyStr p.2)) ++ "\n"

/-- `_generate_confirmation_prompt` (`crud_handlers.py:2325-2361`). -/
def confirmationPrompt (preview : DeletionResult) : String :=
  if preview.affected_rows = 0 then
    "No data would be deleted. Proceed anyway?"
  else
    let dd := preview.deleted_data
    let sampleSize := min 3 dd.length
    let sampleStr :=
      if dd.length > 0 then
        "Sample of data to be deleted:\n" ++
        String.join ((dd.take sampleSize).enum.map (fun p => recordSampleLine p.1 p.2)) ++
        (if dd.length > sampleSize then
          "  ... and " ++ toString (dd.length - sampleSize) ++ " more\n"
         else "")
      else ""
    "This will delete " ++ toString preview.affected_rows ++ " row(s). " ++ sampleStr ++
      "\nAre you sure you want to proceed with this deletion? (This action cannot be undone without restoring from backup)"

/-- `delete_data` (`crud_handlers.py:1738-1815`): validation, sheet
lookup, preview, the 50-row safety gate, the confirmation gate, then
the dispatch to the actual deletion.  Returns the result together with
the workbook after the call (file IO, backup creation and save failures
are outside the model). -/
def deleteData (resolveRange : RangeResolver) (clearRange : RangeClear)
    (wb : Workbook) (d : DeletionData) (confirmed : Bool) :
    DeletionResult × Workbook :=
  let validation := validateDeletionData wb d
  if !validation.success then
    ({ success := false, message := validation.message }, wb)
  else
    match getSheet wb d.target_sheet with
    | Option.none =>
        ({ success := false
           message := "Sheet '" ++ d.target_sheet ++ "' not found" }, wb)
    | Option.some s =>
      let preview := previewDeletion resolveRange s d
      if !preview.success then (preview, wb)
      else if preview.affected_rows > 50 then
        ({ success := false
           message := "Deletion would affect " ++ toString preview.affected_rows ++
             " rows. Limited to 50 rows for safety. Please use more specific conditions." },
         wb)
      else if d.confirmation_required && !confirmed then
        ({ success := false
           message := "Confirmation required for deletion operation"
           requires_confirmation := true
           confirmation_prompt := Option.some (confirmationPrompt preview)
           affected_rows := preview.affected_rows
           deleted_data := preview.deleted_data }, wb)
      else
        match d.target_rows with
        | Option.some rows =>
            let step := deleteSpecificRows s rows
            (step.1, setSheet wb d.target_sheet step.2)
        | Option.none =>
          match d.target_range with
          | Option.some ref =>
              let step := deleteSpecificRange resolveRange clearRange s ref
              (step.1, setSheet wb d.target_sheet step.2)
          | Option.none =>
            match d.conditions with
            | Option.some conds =>
                let step := deleteByConditions s conds
                (step.1, setSheet wb d.target_sheet step.2)
            | Option.none =>
              match d.unique_identifier with
              | Option.some uid =>
                  let step := deleteByUniqueIdentifier s uid
                  (step.1, setSheet wb d.target_sheet step.2)
              | Option.none =>
                  ({ success := false
                     message := "No valid deletion target specified" }, wb)

/-! ## Risk assessment (`src/safety/risk_assessor.py`) -/

/-- `RiskLevel`. -/
inductive RiskLevel where
  | low | medium | high | dangerous
deriving DecidableEq, Repr

/-- `RiskAssessment`. -/
structure RiskAssessment where
  level : RiskLevel
  score : ℚ
  reasons : List String
  blocked : Bool := false
  confirmation_required : Bool := false
deriving DecidableEq, Repr

/-- The `_operation_risks` table (`risk_assessor.py:35-62`). -/
def operationRisks : List (String × RiskLevel) :=
  [("query_data", RiskLevel.low), ("filter_data", RiskLevel.low),
   ("aggregate_data", RiskLevel.low), ("sort_data", RiskLevel.low),
   ("create_chart", RiskLevel.low), ("modify_chart", RiskLevel.low),
   ("shift_axis", RiskLevel.low), ("transform_values", RiskLevel.low),
   ("resize_chart", RiskLevel.low), ("insert_row", RiskLevel.low),
   ("insert_column", RiskLevel.medium), ("update_cells", RiskLevel.medium),
   ("delete_rows", RiskLevel.high), ("delete_columns", RiskLevel.high),
   ("clear_data", RiskLevel.high),
   ("format_all", RiskLevel.dangerous), ("delete_all", RiskLevel.dangerous),
   ("clear_all", RiskLevel.dangerous), ("replace_all", RiskLevel.dangerous)]

/-- `self._operation_risks.get(operation, RiskLevel.MEDIUM)`. -/
def baseRiskOf (operation : String) : RiskLevel :=
  match operationRisks.find? (fun p => p.1 == operation) with
  | Option.some p => p.2
  | Option.none => RiskLevel.medium

/-- `_get_base_score`. -/
def baseScore : RiskLevel → ℚ
  | RiskLevel.low => 2/10
  | RiskLevel.medium => 5/10
  | RiskLevel.high => 8/10
  | RiskLevel.dangerous => 1

/-- `_dangerous_keywords`. -/
def dangerousKeywords : List String :=
  ["all", "everything", "entire", "whole", "complete",
   "format all", "delete all", "clear all", "remove all",
   "entire spreadsheet", "whole sheet", "complete file"]

/-- `_contains_dangerous_keywords` (called on the lowered command). -/
def containsDangerousKeywords (text : String) : Bool :=
  dangerousKeywords.any (fun k => strContains text k)

/-- A Python value as it appears in the `conditions` parameter. -/
inductive PVal where
  | nonev : PVal
  | numv : ℚ → PVal
  | strv : String → PVal
  | listv : List PVal → PVal
  | dictv : List (String × PVal) → PVal

/-- Python truthiness of a `PVal` (`not conditions`). -/
def pvalTruthy : PVal → Bool
  | PVal.nonev => false
  | PVal.numv q => q != 0
  | PVal.strv s => s ≠ ""
  | PVal.listv l => !l.isEmpty
  | PVal.dictv l => !l.isEmpty

mutual

/-- Python `==` on parameter values (`conditions == ['*']`): structural
over lists, mismatched kinds unequal. -/
def pvalEq : PVal → PVal → Bool
  | PVal.nonev, PVal.nonev => true
  | PVal.numv a, PVal.numv b => a == b
  | PVal.strv a, PVal.strv b => a == b
  | PVal.listv a, PVal.listv b => pvalListEq a b
  | PVal.dictv a, PVal.dictv b => pvalDictEq a b
  | _, _ => false

/-- Elementwise equality of value lists. -/
def pvalListEq : List PVal → List PVal → Bool
  | [], [] => true
  | x :: xs, y :: ys => pvalEq x y && pvalListEq xs ys
  | _, _ => false

/-- Pairwise equality of dict entries (insertion order model). -/
def pvalDictEq : List (String × PVal) → List (String × PVal) → Bool
  | [], [] => true
  | x :: xs, y :: ys => x.1 == y.1 && pvalEq x.2 y.2 && pvalDictEq xs ys
  | _, _ => false

end

mutual

/-- Python `repr` of a `PVal`, used through `str(conditions)`; numeric
rendering is abstracted as with `pyStr`. -/
def pvalRepr : PVal → String
  | PVal.nonev => "None"
  | PVal.numv q => toString q
  | PVal.strv s => "'" ++ s ++ "'"
  | PVal.listv l => "[" ++ String.intercalate ", " (pvalListRepr l) ++ "]"
  | PVal.dictv l => "\x7b" ++ String.intercalate ", " (pvalDictRepr l) ++ "\x7d"

/-- `repr` of the elements of a list value. -/
def pvalListRepr : List PVal → List String
  | [] => []
  | x :: xs => pvalRepr x :: pvalListRepr xs

/-- `repr` of the entries of a dict value. -/
def pvalDictRepr : List (String × PVal) → List String
  | [] => []
  | x :: xs => ("'" ++ x.1 ++ "': " ++ pvalRepr x.2) :: pvalDictRepr xs

end

/-- Python `str()` of a `PVal` (`str(conditions)`): like `repr` except
that a top-level string prints without quotes. -/
def pvalStr : PVal → String
  | PVal.strv s => s
  | v => pvalRepr v

/-- The parameter dict as `_assess_parameters` reads it: each key it
looks up, at the type the code then uses it at (`Option.none` models key
absence). -/
structure AssessParams where
  max_rows : Option ℚ := Option.none
  rangeVal : Option String := Option.none
  conditions : Option PVal := Option.none
  hasFormatKey : Bool := false

/-- `_is_large_range`. -/
def isLargeRange (rangeStr : String) : Bool :=
  if rangeStr = "" then false
  else
    [":", "A:Z", "1:1000", "entire", "all"].any
      (fun pat => strContains (pyLower rangeStr) pat)

/-- The write / read operation name lists of `_assess_parameters`. -/
def writeOperations : List String :=
  ["update_cells", "delete_rows", "delete_columns", "clear_data"]

/-- Read-only operation names (same list in `assess_operation` and
`_assess_parameters`). -/
def readOnlyOperations : List String :=
  ["query_data", "filter_data", "aggregate_data", "sort_data"]

/-- The `'max_rows' in parameters` branch of `_assess_parameters`. -/
def maxRowsStep (mr : Option ℚ) (st : ℚ × List String) : ℚ × List String :=
  match mr with
  | Option.some m =>
      if m > 50 then
        (max st.1 1, st.2 ++ ["Operation affects " ++ toString m ++ " rows (limit: 50)"])
      else if m > 10 then
        (max st.1 (8/10), st.2 ++ ["Operation affects " ++ toString m ++ " rows"])
      else st
  | Option.none => st

/-- The `'range' in parameters` branch of `_assess_parameters`. -/
def rangeStep (rv : Option String) (st : ℚ × List String) : ℚ × List String :=
  match rv with
  | Option.some r =>
      if isLargeRange r then
        (max st.1 (8/10), st.2 ++ ["Operation affects large range of cells"])
      else st
  | Option.none => st

/-- The `'conditions' in parameters` branch of `_assess_parameters`:
read operations skip the check; a write operation (by substring match)
with missing/empty/wildcard conditions scores 1.0. -/
def conditionsStep (operation : String) (cv : Option PVal) (st : ℚ × List String) :
    ℚ × List String :=
  match cv with
  | Option.some c =>
      if operation ∈ readOnlyOperations then st
      else if (!pvalTruthy c || pvalEq c (PVal.listv [PVal.strv "*"]) ||
               strContains (pyLower (pvalStr c)) "all") &&
              writeOperations.any (fun op => strContains operation op) then
        (max st.1 1, st.2 ++ ["Operation has no limiting conditions"])
      else st
  | Option.none => st

/-- The format-keys branch of `_assess_parameters`. -/
def formatStep (hasFormatKey : Bool) (st : ℚ × List String) : ℚ × List String :=
  if hasFormatKey then
    (max st.1 (6/10), st.2 ++ ["Operation involves formatting changes"])
  else st

/-- `_assess_parameters` (`risk_assessor.py:139-185`): the four checks
in source order, threading `(risk_score, reasons)` from `(0.0, [])`. -/
def assessParameters (params : AssessParams) (operation : String) :
    ℚ × List String :=
  formatStep params.hasFormatKey
    (conditionsStep operation params.conditions
      (rangeStep params.rangeVal
        (maxRowsStep params.max_rows (0, []))))

/-- `_score_to_risk_level`. -/
def scoreToRiskLevel (score : ℚ) : RiskLevel :=
  if score ≥ 1 then RiskLevel.dangerous
  else if score ≥ 8/10 then RiskLevel.high
  else if score ≥ 5/10 then RiskLevel.medium
  else RiskLevel.low

/-- `assess_operation` (`risk_assessor.py:76-123`). -/
def assessOperation (operation : String) (params : AssessParams)
    (commandText : String) : RiskAssessment :=
  let baseRisk := baseRiskOf operation
  let score0 := baseScore baseRisk
  let dangerous := containsDangerousKeywords (pyLower commandText)
  let score1 := if dangerous then 1 else score0
  let reasons1 : List String :=
    if dangerous then ["Contains dangerous mass operation keywords"] else []
  let paramStep := assessParameters params operation
  let riskScore := max score1 paramStep.1
  let reasons := reasons1 ++ paramStep.2
  let finalRisk := scoreToRiskLevel riskScore
  let blocked := finalRisk == RiskLevel.dangerous
  let confirmationRequired :=
    if operation ∈ readOnlyOperations then false
    else finalRisk == RiskLevel.high || finalRisk == RiskLevel.medium
  { level := finalRisk
    score := riskScore
    reasons := reasons
    blocked := blocked
    confirmation_required := confirmationRequired }

/-! ## Confirmation parsing (`src/ui/confirmation_handler.py`) -/

/-- `positive_responses` (`confirmation_handler.py:54-58`). -/
def positiveResponses : List String :=
  ["yes", "y", "ok", "okay", "proceed", "continue", "confirm",
   "go", "do it", "execute", "run", "sure", "absolutely",
   "affirmative", "correct", "right", "true", "1"]

/-- `negative_responses` (`confirmation_handler.py:61-65`). -/
def negativeResponses : List String :=
  ["no", "n", "cancel", "stop", "abort", "quit", "exit",
   "deny", "refuse", "reject", "negative", "false", "0",
   "nope", "nah", "never", "skip", "not"]

/-- Helper for `str.split()`: walk the characters, accumulating the
current word reversed. -/
def pyWordsAux : List Char → List Char → List String
  | [], acc => if acc.isEmpty then [] else [String.mk acc.reverse]
  | c :: rest, acc =>
      if c.isWhitespace then
        if acc.isEmpty then pyWordsAux rest []
        else String.mk acc.reverse :: pyWordsAux rest []
      else pyWordsAux rest (c :: acc)

/-- Python `str.split()`: split on whitespace runs, no empty tokens. -/
def pySplitWhitespace (s : String) : List String := pyWordsAux s.data []

/-- `parse_confirmation_response` (`confirmation_handler.py:177-214`):
exact match against the word sets first, then a token-presence check,
`Option.none` for empty, ambiguous or unrecognised input. -/
def parseConfirmationResponse (userInput : String) : Option Bool :=
  if userInput = "" then Option.none
  else
    let normalized := pyStrip (pyLower userInput)
    if positiveResponses.contains normalized then Option.some true
    else if negativeResponses.contains normalized then Option.some false
    else
      let words := pySplitWhitespace normalized
      let positiveFound := words.any (fun w => positiveResponses.contains w)
      let negativeFound := words.any (fun w => negativeResponses.contains w)
      if positiveFound && !negativeFound then Option.some true
      else if negativeFound && !positiveFound then Option.some false
      else Option.none

/-! ## Backup retention (`src/excel/excel_service.py`)

A backup file `"{stem}_backup_{timestamp}{ext}"` is modelled by its
original stem and its timestamp (the `%Y%m%d_%H%M%S` string, which for
a fixed format orders like the instant itself, modelled as a natural).
The backup directory is the list of such files; copying over an
existing identical path leaves the set of files unchanged. -/

/-- One backup file in the backup directory. -/
structure BackupFile where
  origName : String
  timestamp : Nat
deriving DecidableEq, Repr

/-- The newest-first ordering `get_backup_list` sorts by
(`backups.sort(key=..., reverse=True)`). -/
def backupNewer (a b : BackupFile) : Prop := b.timestamp ≤ a.timestamp

instance : DecidableRel backupNewer := fun a b => Nat.decLe b.timestamp a.timestamp

instance : IsTotal BackupFile backupNewer :=
  ⟨fun a b => Nat.le_total b.timestamp a.timestamp⟩

instance : IsTrans BackupFile backupNewer :=
  ⟨fun _ _ _ h1 h2 => Nat.le_trans h2 h1⟩

/-- `get_backup_list(original_filename)` (`excel_service.py:352-398`):
the directory's backups for the stem, sorted newest first. -/
def backupList (files : List BackupFile) (stem : String) : List BackupFile :=
  (files.filter (fun f => f.origName == stem)).insertionSort backupNewer

/-- `_cleanup_old_backups` (`excel_service.py:430-452`): if more than
`maxBackups` backups exist for the stem, delete the ones past position
`maxBackups` of the newest-first list. -/
def cleanupOldBackups (files : List BackupFile) (stem : String) (maxBackups : Nat) :
    List BackupFile :=
  let backups := backupList files stem
  if backups.length > maxBackups then
    let toRemove := backups.drop maxBackups
    files.filter (fun f => f ∉ toRemove)
  else files

/-- `create_backup` (`excel_service.py:196-227`) on a loaded file:
copy the file to `"{stem}_backup_{timestamp}"` (overwriting an existing
identical path), then clean up old backups for the stem.  Returns the
directory contents after the call. -/
def createBackup (files : List BackupFile) (stem : String) (timestamp : Nat)
    (maxBackups : Nat) : List BackupFile :=
  let newFile : BackupFile := { origName := stem, timestamp := timestamp }
  let files1 := if newFile ∈ files then files else files ++ [newFile]
  cleanupOldBackups files1 stem maxBackups

/-! ## Template registry (`src/templates/template_registry.py`)

Python import machinery is abstracted behind a `Resolver`
(`_load_function`): it yields a callable or the raised
`ImportError`/`AttributeError`/`TypeError` message.  A callable is
modelled by what calling it returns: a value or a raised error. -/

/-- A raised Python error: its class name and its message. -/
structure PyError where
  kind : String
  message : String
deriving DecidableEq, Repr

/-- What a registered function does when called. -/
abbrev Callable := List Value → Except PyError Value

/-- Abstract `_load_function`. -/
abbrev Resolver := String → Except String Callable

/-- An operation's registry metadata (`_operation_metadata` entry,
restricted to the fields the claims read). -/
structure OpMetadata where
  category : String
  operation : String
  function_path : String
  placeholder : Bool
deriving DecidableEq, Repr

/-- The registry: the function dict and the metadata dict. -/
structure Registry where
  functions : List (String × Callable)
  metadata : List (String × OpMetadata)

/-- Python dict assignment `d[k] = v`: overwrite the binding of `k` in
place if one exists (a dict holds at most one), otherwise append. -/
def dictInsert {α : Type} : List (String × α) → String → α → List (String × α)
  | [], k, v => [(k, v)]
  | p :: t, k, v => if p.1 == k then (k, v) :: t else p :: dictInsert t k v

/-- Python dict lookup `d.get(k)`. -/
def dictFind {α : Type} (l : List (String × α)) (k : String) : Option α :=
  ((l.find? (fun p => p.1 == k))).map Prod.snd

/-- `_create_placeholder_function` (`template_registry.py:128-148`):
calling it raises `NotImplementedError` naming the category, the
operation and the expected function path. -/
def placeholderFunction (category operation functionPath : String) : Callable :=
  fun _ => Except.error
    { kind := "NotImplementedError"
      message := "Operation '" ++ category ++ "." ++ operation ++
        "' is not implemented. Expected function at: " ++ functionPath }

/-- One catalog entry: category, operation name, optional function path
(`op_config.get('function')`). -/
structure CatalogEntry where
  category : String
  operation : String
  functionPath : Option String
deriving Repr

/-- Processing of one catalog entry by `_build_registry`'s loop body:
skip entries without a function path; register the resolved function,
or a placeholder when resolution raises. -/
def buildStep (resolve : Resolver) (reg : Registry) (e : CatalogEntry) : Registry :=
  match e.functionPath with
  | Option.none => reg
  | Option.some path =>
    let key := e.category ++ "." ++ e.operation
    match resolve path with
    | Except.ok f =>
        { functions := dictInsert reg.functions key f
          metadata := dictInsert reg.metadata key
            { category := e.category, operation := e.operation
              function_path := path, placeholder := false } }
    | Except.error _ =>
        { functions := dictInsert reg.functions key
            (placeholderFunction e.category e.operation path)
          metadata := dictInsert reg.metadata key
            { category := e.category, operation := e.operation
              function_path := path, placeholder := true } }

/-- `_build_registry` (`template_registry.py:45-82`): fold the loop body
over the catalog entries (the nested category/operation loops,
flattened in iteration order) starting from empty dicts. -/
def buildRegistry (resolve : Resolver) (catalog : List CatalogEntry) : Registry :=
  catalog.foldl (buildStep resolve) { functions := [], metadata := [] }

/-- `get_function(category, operation)`. -/
def getFunction (reg : Registry) (category operation : String) : Option Callable :=
  dictFind reg.functions (category ++ "." ++ operation)

/-- `execute_operation` (`template_registry.py:172-198`): `KeyError` for
an unknown key, otherwise the call's outcome (a raised error from the
function propagates). -/
def executeOperation (reg : Registry) (category operation : String)
    (args : List Value) : Except PyError Value :=
  match getFunction reg category operation with
  | Option.none => Except.error
      { kind := "KeyError"
        message := "Operation '" ++ category ++ "." ++ operation ++
          "' not found in registry" }
  | Option.some f => f args

/-- `is_operation_available` (`template_registry.py:236-252`). -/
def isOperationAvailable (reg : Registry) (category operation : String) : Bool :=
  match dictFind reg.metadata (category ++ "." ++ operation) with
  | Option.none => false
  | Option.some m => !m.placeholder

/-! ## Outlier detection (`src/operations/data_analysis_operations.py`)

`find_outliers` is embedded from the point where the column's non-empty
numeric samples (`values_with_rows`) have been extracted; only the IQR
method, which the claim exercises, is embedded (the z-score branch needs
real square roots). -/

/-- One reported outlier (`value`, originating `row`, direction). -/
structure Outlier where
  value : ℚ
  row : Nat
  otype : String
deriving DecidableEq, Repr

/-- Ascending sort of the sampled values (`sorted(values)`). -/
def sortValuesAsc (l : List ℚ) : List ℚ :=
  l.insertionSort (fun a b => a ≤ b)

/-- The IQR branch of `find_outliers`
(`data_analysis_operations.py:186-217`): at least 4 samples, quartiles
at positions `n // 4` and `3 * n // 4` of the sorted values, fences
`Q1 − 1.5·IQR` and `Q3 + 1.5·IQR`, outliers reported in sample order. -/
def findOutliersIQR (valuesWithRows : List (ℚ × Nat)) :
    Except String (List Outlier) :=
  if valuesWithRows.length < 4 then
    Except.error "Not enough numeric data for outlier detection (need at least 4 values)"
  else
    let values := valuesWithRows.map Prod.fst
    let sortedValues := sortValuesAsc values
    let n := sortedValues.length
    let q1 := sortedValues.getD (n / 4) 0
    let q3 := sortedValues.getD (3 * n / 4) 0
    let iqr := q3 - q1
    let lowerBound := q1 - 3/2 * iqr
    let upperBound := q3 + 3/2 * iqr
    Except.ok
      ((valuesWithRows.filter (fun p => p.1 < lowerBound || upperBound < p.1)).map
        (fun p =>
          { value := p.1, row := p.2
            otype := if p.1 < lowerBound then "low" else "high" }))

/-! ## Chart-type detection (`src/operations/visualization_operations.py`) -/

/-- `ChartType` (only the members the detector returns are relevant;
the full enum is kept). -/
inductive ChartType where
  | bar | line | pie | scatter | area | doughnut | radar
deriving DecidableEq, Repr

/-- A worksheet as the detector reads it: a cell value per (row,
column), 1-based as in openpyxl. -/
abbrev Grid := Nat → Nat → Value

/-- `DataRange` (`visualization_operations.py:51-66`). -/
structure ChartDataRange where
  start_row : Nat
  start_col : Nat
  end_row : Nat
  end_col : Nat
  has_headers : Bool := true

/-- The per-column sample scan of `detect_chart_type`: the column counts
as numeric when no sampled cell (first `min 5 dataRows` data rows) holds
a non-numeric, non-`None` value. -/
def columnIsNumeric (grid : Grid) (startDataRow sampleSize col : Nat) : Bool :=
  (List.range sampleSize).all (fun i =>
    match grid (startDataRow + i) col with
    | Value.str _ => false
    | _ => true)

/-- Numeric-column count over the range. -/
def numericColsOf (grid : Grid) (r : ChartDataRange) : Nat :=
  let dataRows := (r.end_row - r.start_row + 1) - (if r.has_headers then 1 else 0)
  let startDataRow := r.start_row + (if r.has_headers then 1 else 0)
  let sampleSize := min 5 dataRows
  ((List.range (r.end_col - r.start_col + 1)).map (fun i => r.start_col + i)).countP
    (fun col => columnIsNumeric grid startDataRow sampleSize col)

/-- The decision chain of `detect_chart_type`
(`visualization_operations.py:84-148`) as a function of the computed
shape: column count, data-row count, numeric and text column counts. -/
def chartDecision (numCols dataRows numericCols textCols : Nat) : ChartType :=
  if numCols = 2 && textCols = 1 && numericCols = 1 then
    if dataRows ≤ 10 then ChartType.pie else ChartType.bar
  else if numericCols ≥ 2 then
    if dataRows > 20 then ChartType.line else ChartType.bar
  else if numericCols = 1 && textCols ≥ 1 then ChartType.bar
  else if numericCols ≥ 2 && dataRows ≤ 50 && dataRows > 10 then ChartType.scatter
  else ChartType.bar

/-- `ChartTypeDetector.detect_chart_type`: count the range shape, then
run the decision chain (`text_cols` is the complement of the numeric
count, as each sampled column increments exactly one counter). -/
def detectChartType (grid : Grid) (r : ChartDataRange) : ChartType :=
  let numCols := r.end_col - r.start_col + 1
  let numRows := r.end_row - r.start_row + 1
  let dataRows := numRows - (if r.has_headers then 1 else 0)
  let numericCols := numericColsOf grid r
  let textCols := numCols - numericCols
  chartDecision numCols dataRows numericCols textCols

/-- The range's column count (`num_cols`). -/
def chartNumCols (r : ChartDataRange) : Nat := r.end_col - r.start_col + 1

/-- The range's data-row count (`data_rows`). -/
def chartDataRows (r : ChartDataRange) : Nat :=
  (r.end_row - r.start_row + 1) - (if r.has_headers then 1 else 0)

/-- The range's text-column count (`text_cols`: each sampled column
increments exactly one of the two counters). -/
def textColsOf (grid : Grid) (r : ChartDataRange) : Nat :=
  chartNumCols r - numericColsOf grid r

/-- Modelled from the spec: the decision rules as the spec states them,
in order — pie for a 2-column range with exactly one text and one
numeric column and at most 10 data rows (else bar for more rows); line
for at least 2 numeric columns with more than 20 data rows (else bar);
bar for exactly one numeric column with text column(s); scatter for at
least 2 numeric columns when the data-row count is greater than 10 and
at most 50; bar as the universal fallback. -/
def chartRuleChainSpec (numCols dataRows numericCols textCols : Nat) : ChartType :=
  if numCols = 2 && textCols = 1 && numericCols = 1 then
    if dataRows ≤ 10 then ChartType.pie else ChartType.bar
  else if numericCols ≥ 2 then
    if dataRows > 20 then ChartType.line else ChartType.bar
  else if numericCols = 1 && textCols ≥ 1 then ChartType.bar
  else if numericCols ≥ 2 && dataRows ≤ 50 && dataRows > 10 then ChartType.scatter
  else ChartType.bar

/-! ## Proof helpers -/

/-- The 0-based positions at which a predicate holds; `matchIdxs p l`
mirrors the enumeration loops that collect matching row indices. -/
def matchIdxs {α : Type} (p : α → Bool) : List α → List Nat
  | [] => []
  | a :: l => (if p a then [0] else []) ++ (matchIdxs p l).map (fun i => i + 1)

/-! # Theorems -/

/-- C10: the shared condition evaluator is total — it returns a boolean
for every record value, operator string and condition value; a
comparison that raises a type error yields `false`; and every operator
outside the nine supported ones yields `false`, so such a condition
matches no rows rather than failing the operation. -/
theorem c10_condition_evaluation_total :
    (∀ rv op cv, evaluateCondition rv op cv = true ∨ evaluateCondition rv op cv = false) ∧
    (∀ rv op cv e, evalCondCore rv op cv = Except.error e →
      evaluateCondition rv op cv = false) ∧
    (∀ rv op cv, op ∉ supportedOperators → evaluateCondition rv op cv = false) := by
  refine ⟨fun rv op cv => ?_, fun rv op cv e h => ?_, fun rv op cv h => ?_⟩
  · cases evaluateCondition rv op cv <;> simp
  · simp [evaluateCondition, h]
  · simp only [supportedOperators, List.mem_cons, not_or, List.not_mem_nil] at h
    obtain ⟨h1, h2, h3, h4, h5, h6, h7, h8, h9, -⟩ := h
    simp [evaluateCondition, evalCondCore, h1, h2, h3, h4, h5, h6, h7, h8, h9]

/-- Witness for C10 at concrete inputs: the unsupported operator
`"between"` matches nothing, and a number/string `>` comparison (a
Python `TypeError`) yields `false`. -/
theorem c10_condition_evaluation_total_witness :
    evaluateCondition (Value.num 3) "between" (Value.num 5) = false ∧
    evaluateCondition (Value.num 3) ">" (Value.str "x") = false :=
  ⟨c10_condition_evaluation_total.2.2 (Value.num 3) "between" (Value.num 5) (by decide),
   c10_condition_evaluation_total.2.1 (Value.num 3) ">" (Value.str "x") () (by rfl)⟩

/-- C3: for a query on an existing sheet (with a valid sort order), an
absent limit or a limit above 10000 is rejected with the safety message
asking the caller to supply a limit; a limit below 1 is rejected; and a
limit of exactly 10000 passes validation. -/
theorem c3_query_limit_validation (names : List String) (q : QueryData)
    (hmem : q.target_sheet ∈ names) (hne : q.target_sheet ≠ "")
    (hsort : q.sort_order = "asc" ∨ q.sort_order = "desc") :
    ((q.limit = Option.none ∨ (∃ l, q.limit = Option.some l ∧ l > 10000)) →
      validateQuery names q =
        { success := false
          message := "Query result limited to 10000 rows for safety. Please add a limit parameter." }) ∧
    (∀ l, q.limit = Option.some l → l < 1 →
      (validateQuery names q).success = false) ∧
    (q.limit = Option.some 10000 →
      validateQuery names q = { success := true, message := "Validation passed" }) := by
  have hs : q.sort_order ∈ ["asc", "desc"] := by
    rcases hsort with h | h <;> simp [h]
  refine ⟨?_, ?_, ?_⟩
  · rintro (h | ⟨l, hl, hgt⟩)
    · simp [validateQuery, hne, hmem, hs, h]
    · have h1 : ¬ (l < 1) := by omega
      simp [validateQuery, hne, hmem, hs, hl, h1, hgt]
  · intro l hl hlt
    simp [validateQuery, hne, hmem, hs, hl, hlt]
  · intro h
    simp [validateQuery, hne, hmem, hs, h]

/-- Witness for C3 on a one-sheet workbook: no limit is rejected with
the supply-a-limit message, limit 0 is rejected, limit 10000 passes. -/
theorem c3_query_limit_validation_witness :
    validateQuery ["Data"] { target_sheet := "Data", limit := Option.none } =
      { success := false
        message := "Query result limited to 10000 rows for safety. Please add a limit parameter." } ∧
    (validateQuery ["Data"] { target_sheet := "Data", limit := Option.some 0 }).success = false ∧
    validateQuery ["Data"] { target_sheet := "Data", limit := Option.some 10000 } =
      { success := true, message := "Validation passed" } :=
  ⟨(c3_query_limit_validation ["Data"] _ (by decide) (by decide) (Or.inl rfl)).1
      (Or.inl rfl),
   (c3_query_limit_validation ["Data"] _ (by decide) (by decide) (Or.inl rfl)).2.1
      0 rfl (by decide),
   (c3_query_limit_validation ["Data"] _ (by decide) (by decide) (Or.inl rfl)).2.2 rfl⟩

/-- C9: `detect_chart_type` follows the stated decision rules over the
shape of the range — it coincides everywhere with the rule chain as the
spec words it (`chartRuleChainSpec`) — and on a 2-column one-text /
one-numeric range it gives pie at 8 data rows and bar at 30 data rows. -/
theorem c9_chart_type_rules :
    (∀ (g : Grid) (r : ChartDataRange),
        detectChartType g r =
          chartRuleChainSpec (chartNumCols r) (chartDataRows r)
            (numericColsOf g r) (textColsOf g r)) ∧
    detectChartType (fun _ c => if c = 1 then Value.str "label" else Value.num 1)
        { start_row := 1, start_col := 1, end_row := 9, end_col := 2 } = ChartType.pie ∧
    detectChartType (fun _ c => if c = 1 then Value.str "label" else Value.num 1)
        { start_row := 1, start_col := 1, end_row := 31, end_col := 2 } = ChartType.bar :=
  ⟨fun _ _ => rfl, by decide, by decide⟩

/-- Shared evaluation of the IQR outlier pipeline on the claim's
sample (rows 2..10): Q1 = 12, Q3 = 13, fences 10.5 and 14.5. -/
lemma findOutliersIQR_sample_eval :
    findOutliersIQR
        [((10 : ℚ), 2), (12, 3), (12, 4), (13, 5), (12, 6), (11, 7), (14, 8),
         (13, 9), (100, 10)] =
      Except.ok [{ value := 10, row := 2, otype := "low" },
                 { value := 100, row := 10, otype := "high" }] := by
  have hsort : sortValuesAsc [10, 12, 12, 13, 12, 11, 14, 13, 100] =
      [10, 11, 12, 12, 12, 13, 13, 14, 100] := by
    norm_num [sortValuesAsc, List.insertionSort, List.orderedInsert]
  simp only [findOutliersIQR, List.map]
  norm_num [hsort, List.getD, List.filter]

/-- C8 counterexample: on the sample `[10,12,12,13,12,11,14,13,100]`
(rows 2..10) the IQR method takes Q1 = 12 and Q3 = 13, so the lower
fence is 10.5 and the value 10 IS flagged as a low outlier — the claim
states no low outlier is flagged. -/
theorem c8_counterexample :
    ((findOutliersIQR
        [((10 : ℚ), 2), (12, 3), (12, 4), (13, 5), (12, 6), (11, 7), (14, 8),
         (13, 9), (100, 10)]).toOption.getD []).countP
      (fun o => o.otype == "low") = 1 := by
  rw [findOutliersIQR_sample_eval]
  rfl

/-- C8 amended: on the sample `[10,12,12,13,12,11,14,13,100]` the IQR
method flags 100 as a high outlier and 10 as a low outlier (fences
10.5 and 14.5), and nothing else. -/
theorem c8_amended_iqr_outliers :
    findOutliersIQR
        [((10 : ℚ), 2), (12, 3), (12, 4), (13, 5), (12, 6), (11, 7), (14, 8),
         (13, 9), (100, 10)] =
      Except.ok [{ value := 10, row := 2, otype := "low" },
                 { value := 100, row := 10, otype := "high" }] :=
  findOutliersIQR_sample_eval

/-- C7 counterexample: the comma stays attached to the token
`"sure,"` when the reply `"sure, let's do it"` is split on whitespace,
so no token matches the positive word set and the parser returns
unclear (`Option.none`) — the claim states it parses as affirmative. -/
theorem c7_counterexample :
    parseConfirmationResponse "sure, let\x27s do it" = Option.none := by decide

/-- C7 amended: `"yes"` and `"Y"` parse as affirmative, `"no"` and
`"cancel please"` as negative, while `"maybe"` AND `"sure, let's do
it"` parse as unclear (the comma clings to the `"sure,"` token so
neither word set matches); exact match against the word sets comes
first, then the token-presence check, and unclear is returned only when
both or neither set matched. -/
theorem c7_amended_confirmation_parsing :
    parseConfirmationResponse "yes" = Option.some true ∧
    parseConfirmationResponse "Y" = Option.some true ∧
    parseConfirmationResponse "sure, let\x27s do it" = Option.none ∧
    parseConfirmationResponse "no" = Option.some false ∧
    parseConfirmationResponse "cancel please" = Option.some false ∧
    parseConfirmationResponse "maybe" = Option.none ∧
    (∀ s, s ≠ "" → positiveResponses.contains (pyStrip (pyLower s)) = true →
        parseConfirmationResponse s = Option.some true) ∧
    (∀ s, s ≠ "" → positiveResponses.contains (pyStrip (pyLower s)) = false →
        negativeResponses.contains (pyStrip (pyLower s)) = true →
        parseConfirmationResponse s = Option.some false) ∧
    (∀ s, s ≠ "" → positiveResponses.contains (pyStrip (pyLower s)) = false →
        negativeResponses.contains (pyStrip (pyLower s)) = false →
        ((pySplitWhitespace (pyStrip (pyLower s))).any
            (fun w => positiveResponses.contains w) =
          (pySplitWhitespace (pyStrip (pyLower s))).any
            (fun w => negativeResponses.contains w)) →
        parseConfirmationResponse s = Option.none) := by
  refine ⟨by decide, by decide, by decide, by decide, by decide, by decide, ?_, ?_, ?_⟩
  · intro s hs hp
    simp only [parseConfirmationResponse, hp]
    simp [hs]
  · intro s hs hp hn
    simp only [parseConfirmationResponse, hp, hn]
    simp [hs]
  · intro s hs hp hn heq
    simp only [parseConfirmationResponse, hp, hn]
    rw [if_neg hs, heq]
    simp

/-- Witness for C7's general clauses: exact positive match after
trimming, exact negative match, and a both-sets token reply that is
unclear. -/
theorem c7_amended_confirmation_parsing_witness :
    parseConfirmationResponse " yes " = Option.some true ∧
    parseConfirmationResponse " no " = Option.some false ∧
    parseConfirmationResponse "confirm cancel" = Option.none :=
  ⟨c7_amended_confirmation_parsing.2.2.2.2.2.2.1 " yes " (by decide) (by decide),
   c7_amended_confirmation_parsing.2.2.2.2.2.2.2.1 " no " (by decide) (by decide) (by decide),
   c7_amended_confirmation_parsing.2.2.2.2.2.2.2.2 "confirm cancel" (by decide)
     (by decide) (by decide) (by decide)⟩

/-- Each assessment step only raises the running risk score. -/
lemma maxRowsStep_fst_le (mr : Option ℚ) (st : ℚ × List String) :
    st.1 ≤ (maxRowsStep mr st).1 := by
  cases mr with
  | none => exact le_refl _
  | some m =>
      simp only [maxRowsStep]
      split_ifs <;> simp [le_max_left]

/-- The max-rows step keeps the score at most 1. -/
lemma maxRowsStep_fst_le_one (mr : Option ℚ) (st : ℚ × List String)
    (h : st.1 ≤ 1) : (maxRowsStep mr st).1 ≤ 1 := by
  cases mr with
  | none => exact h
  | some m =>
      simp only [maxRowsStep]
      split_ifs <;> simp [max_le_iff, h] <;> norm_num

/-- The range step only raises the running risk score. -/
lemma rangeStep_fst_le (rv : Option String) (st : ℚ × List String) :
    st.1 ≤ (rangeStep rv st).1 := by
  cases rv with
  | none => exact le_refl _
  | some r =>
      simp only [rangeStep]
      split_ifs <;> simp [le_max_left]

/-- The range step keeps the score at most 1. -/
lemma rangeStep_fst_le_one (rv : Option String) (st : ℚ × List String)
    (h : st.1 ≤ 1) : (rangeStep rv st).1 ≤ 1 := by
  cases rv with
  | none => exact h
  | some r =>
      simp only [rangeStep]
      split_ifs <;> simp [max_le_iff, h] <;> norm_num

/-- The conditions step only raises the running risk score. -/
lemma conditionsStep_fst_le (op : String) (cv : Option PVal) (st : ℚ × List String) :
    st.1 ≤ (conditionsStep op cv st).1 := by
  cases cv with
  | none => exact le_refl _
  | some c =>
      simp only [conditionsStep]
      split_ifs <;> simp [le_max_left]

/-- The conditions step keeps the score at most 1. -/
lemma conditionsStep_fst_le_one (op : String) (cv : Option PVal) (st : ℚ × List String)
    (h : st.1 ≤ 1) : (conditionsStep op cv st).1 ≤ 1 := by
  cases cv with
  | none => exact h
  | some c =>
      simp only [conditionsStep]
      split_ifs <;> simp [max_le_iff, h]

/-- The format step only raises the running risk score. -/
lemma formatStep_fst_le (fk : Bool) (st : ℚ × List String) :
    st.1 ≤ (formatStep fk st).1 := by
  simp only [formatStep]
  split_ifs <;> simp [le_max_left]

/-- The format step keeps the score at most 1. -/
lemma formatStep_fst_le_one (fk : Bool) (st : ℚ × List String)
    (h : st.1 ≤ 1) : (formatStep fk st).1 ≤ 1 := by
  simp only [formatStep]
  split_ifs <;> simp [max_le_iff, h] <;> norm_num

/-- The parameter score never exceeds 1. -/
lemma assessParameters_fst_le_one (p : AssessParams) (op : String) :
    (assessParameters p op).1 ≤ 1 := by
  unfold assessParameters
  apply formatStep_fst_le_one
  apply conditionsStep_fst_le_one
  apply rangeStep_fst_le_one
  apply maxRowsStep_fst_le_one
  norm_num

/-- An empty conditions value on `delete_rows` drives the conditions
step to score 1. -/
lemma conditionsStep_delete_rows_ge_one (c : PVal) (st : ℚ × List String)
    (ht : pvalTruthy c = false) :
    1 ≤ (conditionsStep "delete_rows" (Option.some c) st).1 := by
  simp only [conditionsStep, ht, Bool.not_false, Bool.true_or, Bool.true_and]
  rw [if_neg (by decide : ("delete_rows" : String) ∉ readOnlyOperations),
      if_pos
        (by decide : (writeOperations.any fun op => strContains "delete_rows" op) = true)]
  exact le_max_right _ _

/-- `_assess_parameters` on `delete_rows` with an empty conditions
parameter scores exactly 1. -/
lemma assessParameters_delete_rows_eq_one (p : AssessParams) (c : PVal)
    (hc : p.conditions = Option.some c) (ht : pvalTruthy c = false) :
    (assessParameters p "delete_rows").1 = 1 := by
  refine le_antisymm (assessParameters_fst_le_one p _) ?_
  unfold assessParameters
  rw [hc]
  exact le_trans (conditionsStep_delete_rows_ge_one c _ ht) (formatStep_fst_le _ _)

/-- C4: the risk assessor never requires confirmation for the read-only
operations (`query_data`, `filter_data`, `aggregate_data`, `sort_data`)
— for every parameter mapping and command text, including an empty
`conditions` parameter — while `delete_rows` with an empty conditions
parameter scores exactly 1.0, and every assessment scoring 1.0 is
blocked. -/
theorem c4_risk_assessment (params : AssessParams) (cmd : String) :
    ((assessOperation "query_data" params cmd).confirmation_required = false ∧
     (assessOperation "filter_data" params cmd).confirmation_required = false ∧
     (assessOperation "aggregate_data" params cmd).confirmation_required = false ∧
     (assessOperation "sort_data" params cmd).confirmation_required = false) ∧
    (∀ c, params.conditions = Option.some c → pvalTruthy c = false →
        (assessOperation "delete_rows" params cmd).score = 1) ∧
    (∀ op, (assessOperation op params cmd).score = 1 →
        (assessOperation op params cmd).blocked = true) := by
  refine ⟨⟨?_, ?_, ?_, ?_⟩, ?_, ?_⟩
  · simp only [assessOperation]
    rw [if_pos (by decide : ("query_data" : String) ∈ readOnlyOperations)]
  · simp only [assessOperation]
    rw [if_pos (by decide : ("filter_data" : String) ∈ readOnlyOperations)]
  · simp only [assessOperation]
    rw [if_pos (by decide : ("aggregate_data" : String) ∈ readOnlyOperations)]
  · simp only [assessOperation]
    rw [if_pos (by decide : ("sort_data" : String) ∈ readOnlyOperations)]
  · intro c hc ht
    simp only [assessOperation]
    rw [assessParameters_delete_rows_eq_one params c hc ht]
    apply max_eq_right
    have hb : baseRiskOf "delete_rows" = RiskLevel.high := by decide
    split_ifs
    · exact le_refl 1
    · rw [hb]
      norm_num [baseScore]
  · intro op h
    simp only [assessOperation] at h ⊢
    rw [h]
    norm_num [scoreToRiskLevel]

/-- Witness for C4 at concrete inputs: empty-list conditions, empty
command text. -/
theorem c4_risk_assessment_witness :
    (assessOperation "query_data"
        { conditions := Option.some (PVal.listv []) } "").confirmation_required = false ∧
    (assessOperation "delete_rows"
        { conditions := Option.some (PVal.listv []) } "").score = 1 ∧
    (assessOperation "delete_rows"
        { conditions := Option.some (PVal.listv []) } "").blocked = true :=
  ⟨(c4_risk_assessment { conditions := Option.some (PVal.listv []) } "").1.1,
   (c4_risk_assessment { conditions := Option.some (PVal.listv []) } "").2.1
     (PVal.listv []) rfl rfl,
   (c4_risk_assessment { conditions := Option.some (PVal.listv []) } "").2.2
     "delete_rows"
     ((c4_risk_assessment { conditions := Option.some (PVal.listv []) } "").2.1
       (PVal.listv []) rfl rfl)⟩

/-- Looking up the key just assigned yields the assigned value. -/
lemma dictFind_dictInsert_self {α : Type} (l : List (String × α)) (k : String) (v : α) :
    dictFind (dictInsert l k v) k = Option.some v := by
  induction l with
  | nil => simp [dictInsert, dictFind]
  | cons p t ih =>
      by_cases h : p.1 = k
      · simp [dictInsert, dictFind, h]
      · simp only [dictInsert, dictFind] at ih ⊢
        simp [h, ih]

/-- Assigning one key leaves every other key's binding unchanged. -/
lemma dictFind_dictInsert_ne {α : Type} (l : List (String × α)) (k k' : String)
    (v : α) (h : k' ≠ k) :
    dictFind (dictInsert l k v) k' = dictFind l k' := by
  have hkk : ¬ (k = k') := fun hh => h hh.symm
  induction l with
  | nil => simp [dictInsert, dictFind, hkk]
  | cons p t ih =>
      by_cases hp : p.1 = k
      · have hp' : ¬ (p.1 = k') := by rw [hp]; exact hkk
        simp [dictInsert, dictFind, hp, hkk, hp']
      · by_cases hp' : p.1 = k'
        · simp [dictInsert, dictFind, hp, hp', h]
        · simp only [dictInsert, dictFind] at ih ⊢
          simp [hp, hp', ih]

/-- A build step for a different registry key changes neither dict at
the observed key. -/
lemma buildStep_preserves (resolve : Resolver) (reg : Registry) (e : CatalogEntry)
    (k : String) (h : e.category ++ "." ++ e.operation ≠ k) :
    dictFind (buildStep resolve reg e).functions k = dictFind reg.functions k ∧
    dictFind (buildStep resolve reg e).metadata k = dictFind reg.metadata k := by
  cases hp : e.functionPath with
  | none => simp [buildStep, hp]
  | some path =>
      cases hr : resolve path with
      | ok f =>
          simp [buildStep, hp, hr, dictFind_dictInsert_ne _ _ _ _ (fun hh => h hh.symm)]
      | error msg =>
          simp [buildStep, hp, hr, dictFind_dictInsert_ne _ _ _ _ (fun hh => h hh.symm)]

/-- Folding build steps whose keys all differ from the observed key
preserves both lookups. -/
lemma buildFold_preserves (resolve : Resolver) (es : List CatalogEntry)
    (reg : Registry) (k : String)
    (h : ∀ e ∈ es, e.category ++ "." ++ e.operation ≠ k) :
    dictFind ((es.foldl (buildStep resolve) reg)).functions k =
      dictFind reg.functions k ∧
    dictFind ((es.foldl (buildStep resolve) reg)).metadata k =
      dictFind reg.metadata k := by
  induction es generalizing reg with
  | nil => exact ⟨rfl, rfl⟩
  | cons e t ih =>
      have he := buildStep_preserves resolve reg e k (h e (by simp))
      have ht := ih (buildStep resolve reg e) (fun x hx => h x (by simp [hx]))
      exact ⟨ht.1.trans he.1, ht.2.trans he.2⟩

/-- C6: a catalog entry whose function path fails to resolve still gets
a registry entry (registry construction does not raise), marked as a
placeholder; executing it raises a `NotImplementedError` whose message
names the category, operation and expected function path;
`is_operation_available` is false for it, and in general is true
exactly for registered non-placeholder entries. -/
theorem c6_placeholder_registration (resolve : Resolver)
    (pre post : List CatalogEntry) (e : CatalogEntry) (path err : String)
    (hpath : e.functionPath = Option.some path)
    (hres : resolve path = Except.error err)
    (hlast : ∀ e2 ∈ post,
      e2.category ++ "." ++ e2.operation ≠ e.category ++ "." ++ e.operation) :
    (∀ args,
      executeOperation (buildRegistry resolve (pre ++ e :: post))
          e.category e.operation args =
        Except.error
          { kind := "NotImplementedError"
            message := "Operation '" ++ e.category ++ "." ++ e.operation ++
              "' is not implemented. Expected function at: " ++ path }) ∧
    dictFind (buildRegistry resolve (pre ++ e :: post)).metadata
        (e.category ++ "." ++ e.operation) =
      Option.some
        { category := e.category, operation := e.operation
          function_path := path, placeholder := true } ∧
    isOperationAvailable (buildRegistry resolve (pre ++ e :: post))
        e.category e.operation = false ∧
    (∀ cat op,
      isOperationAvailable (buildRegistry resolve (pre ++ e :: post)) cat op = true ↔
        ∃ m, dictFind (buildRegistry resolve (pre ++ e :: post)).metadata
              (cat ++ "." ++ op) = Option.some m ∧ m.placeholder = false) := by
  set key := e.category ++ "." ++ e.operation with hkeydef
  have hfold :
      buildRegistry resolve (pre ++ e :: post) =
        post.foldl (buildStep resolve)
          (buildStep resolve (pre.foldl (buildStep resolve)
            { functions := [], metadata := [] }) e) := by
    simp [buildRegistry, List.foldl_append]
  set reg0 := pre.foldl (buildStep resolve) { functions := [], metadata := [] } with hreg0
  have hstep :
      buildStep resolve reg0 e =
        { functions := dictInsert reg0.functions key
            (placeholderFunction e.category e.operation path)
          metadata := dictInsert reg0.metadata key
            { category := e.category, operation := e.operation
              function_path := path, placeholder := true } } := by
    simp [buildStep, hpath, hres]
  have hpres := buildFold_preserves resolve post (buildStep resolve reg0 e) key hlast
  have hfun :
      dictFind (buildRegistry resolve (pre ++ e :: post)).functions key =
        Option.some (placeholderFunction e.category e.operation path) := by
    rw [hfold, hpres.1, hstep]
    exact dictFind_dictInsert_self _ _ _
  have hmeta :
      dictFind (buildRegistry resolve (pre ++ e :: post)).metadata key =
        Option.some
          { category := e.category, operation := e.operation
            function_path := path, placeholder := true } := by
    rw [hfold, hpres.2, hstep]
    exact dictFind_dictInsert_self _ _ _
  refine ⟨?_, hmeta, ?_, ?_⟩
  · intro args
    simp [executeOperation, getFunction, hfun, placeholderFunction]
  · simp [isOperationAvailable, hmeta]
  · intro cat op
    simp only [isOperationAvailable]
    cases hm : dictFind (buildRegistry resolve (pre ++ e :: post)).metadata
        (cat ++ "." ++ op) with
    | none => simp
    | some m =>
        cases hpm : m.placeholder <;> simp [hpm]

/-- Witness for C6: a one-entry catalog whose only function path fails
to resolve. -/
theorem c6_placeholder_registration_witness :
    executeOperation
        (buildRegistry (fun _ => Except.error "No module named ops")
          [{ category := "data", operation := "insert_row"
             functionPath := Option.some "ops.insert_row" }])
        "data" "insert_row" [] =
      Except.error
        { kind := "NotImplementedError"
          message := "Operation '" ++ "data" ++ "." ++ "insert_row" ++
            "' is not implemented. Expected function at: " ++ "ops.insert_row" } ∧
    isOperationAvailable
        (buildRegistry (fun _ => Except.error "No module named ops")
          [{ category := "data", operation := "insert_row"
             functionPath := Option.some "ops.insert_row" }])
        "data" "insert_row" = false :=
  ⟨(c6_placeholder_registration (fun _ => Except.error "No module named ops")
      [] [] _ "ops.insert_row" "No module named ops" rfl rfl
      (fun _ hx => absurd hx (List.not_mem_nil _))).1 [],
   (c6_placeholder_registration (fun _ => Except.error "No module named ops")
      [] [] _ "ops.insert_row" "No module named ops" rfl rfl
      (fun _ hx => absurd hx (List.not_mem_nil _))).2.2.1⟩

/-- C5: after a successful `create_backup` (fresh timestamped file into
a directory of distinct files), at most `max_backups` backups remain
for the stem and they are exactly the newest ones — the set retained is
the first `max_backups` of the newest-first list over the directory
including the new backup; `get_backup_list` is always sorted newest
first; and after 12 backups of one stem with `max_backups = 10`,
exactly the 10 newest (timestamps 12 down to 3) remain. -/
theorem c5_backup_retention (files : List BackupFile) (stem : String) (ts maxB : Nat)
    (hnodup : files.Nodup)
    (hnew : ({ origName := stem, timestamp := ts } : BackupFile) ∉ files) :
    (backupList (createBackup files stem ts maxB) stem).length ≤ maxB ∧
    (backupList (createBackup files stem ts maxB) stem).Perm
      ((backupList (files ++ [{ origName := stem, timestamp := ts }]) stem).take maxB) ∧
    (∀ (fs : List BackupFile) (st : String),
      List.Sorted backupNewer (backupList fs st)) ∧
    backupList
        ((List.range 12).foldl (fun fs i => createBackup fs "report" (i + 1) 10) [])
        "report" =
      [{ origName := "report", timestamp := 12 }, { origName := "report", timestamp := 11 },
       { origName := "report", timestamp := 10 }, { origName := "report", timestamp := 9 },
       { origName := "report", timestamp := 8 }, { origName := "report", timestamp := 7 },
       { origName := "report", timestamp := 6 }, { origName := "report", timestamp := 5 },
       { origName := "report", timestamp := 4 }, { origName := "report", timestamp := 3 }] := by
  have hsorted : ∀ (fs : List BackupFile) (st : String),
      List.Sorted backupNewer (backupList fs st) := by
    intro fs st
    exact List.sorted_insertionSort backupNewer _
  set newf : BackupFile := { origName := stem, timestamp := ts } with hnewf
  set files1 := files ++ [newf] with hfiles1
  have hcreate : createBackup files stem ts maxB = cleanupOldBackups files1 stem maxB := by
    simp [createBackup, hnew]
  set L := files1.filter (fun f => f.origName == stem) with hL
  set S := L.insertionSort backupNewer with hS
  have hSL : S.Perm L := List.perm_insertionSort backupNewer L
  have hback1 : backupList files1 stem = S := rfl
  by_cases hlen : S.length > maxB
  · -- cleanup removes the entries past position maxB of the sorted list
    have hres : cleanupOldBackups files1 stem maxB =
        files1.filter (fun f => f ∉ S.drop maxB) := by
      simp only [cleanupOldBackups, hback1]
      rw [if_pos hlen]
    have hnodup1 : files1.Nodup := by
      rw [hfiles1]
      refine List.Nodup.append hnodup (List.nodup_singleton newf) ?_
      intro a ha hb
      rw [List.mem_singleton] at hb
      exact hnew (hb ▸ ha)
    have hLnodup : L.Nodup := hnodup1.filter _
    have hSnodup : S.Nodup := hSL.symm.nodup hLnodup
    have hdisj : ∀ a ∈ S.take maxB, a ∉ S.drop maxB := by
      have := hSnodup
      rw [← List.take_append_drop maxB S, List.nodup_append] at this
      exact fun a ha hb => this.2.2 ha hb
    -- the remaining files for the stem are a permutation of take maxB S
    have hfilters :
        (files1.filter (fun f => f ∉ S.drop maxB)).filter
            (fun f => f.origName == stem) =
          L.filter (fun f => f ∉ S.drop maxB) := by
      rw [hL, List.filter_filter, List.filter_filter]
      apply List.filter_congr
      intro a _
      exact Bool.and_comm _ _
    have hperm1 : (L.filter (fun f => f ∉ S.drop maxB)).Perm
        (S.filter (fun f => f ∉ S.drop maxB)) :=
      (hSL.symm.filter _)
    have hSfilter : S.filter (fun f => f ∉ S.drop maxB) = S.take maxB := by
      set pred : BackupFile → Bool := fun f => decide (f ∉ S.drop maxB) with hpreddef
      have h1 : (S.take maxB).filter pred = S.take maxB := by
        rw [List.filter_eq_self]
        intro a ha
        simpa [hpreddef] using hdisj a ha
      have h2 : (S.drop maxB).filter pred = [] := by
        rw [List.filter_eq_nil_iff]
        intro a ha
        simp [hpreddef, ha]
      conv_lhs => rw [← List.take_append_drop maxB S]
      rw [List.filter_append, h1, h2, List.append_nil]
    have hmain : (backupList (createBackup files stem ts maxB) stem).Perm
        (S.take maxB) := by
      rw [hcreate, hres]
      show (((files1.filter (fun f => f ∉ S.drop maxB)).filter
          (fun f => f.origName == stem)).insertionSort backupNewer).Perm (S.take maxB)
      refine (List.perm_insertionSort _ _).trans ?_
      rw [hfilters, ← hSfilter]
      exact hperm1
    refine ⟨?_, ?_, hsorted, ?_⟩
    · rw [hmain.length_eq]
      exact le_trans (List.length_take_le maxB S) (le_refl _)
    · rw [hback1]
      exact hmain
    · decide
  · -- nothing to clean up
    push_neg at hlen
    have hres : cleanupOldBackups files1 stem maxB = files1 := by
      simp only [cleanupOldBackups, hback1]
      rw [if_neg (by omega)]
    have htake : S.take maxB = S := List.take_of_length_le hlen
    refine ⟨?_, ?_, hsorted, ?_⟩
    · rw [hcreate, hres, hback1]
      exact hlen
    · rw [hcreate, hres, hback1, htake]
    · decide

/-- Witness for C5: two existing backups of `"report"`, a third one
created with `max_backups = 2`. -/
theorem c5_backup_retention_witness :
    (backupList
        (createBackup [{ origName := "report", timestamp := 1 },
                       { origName := "report", timestamp := 2 }] "report" 3 2)
        "report").length ≤ 2 ∧
    (backupList
        (createBackup [{ origName := "report", timestamp := 1 },
                       { origName := "report", timestamp := 2 }] "report" 3 2)
        "report").Perm
      ((backupList
          ([{ origName := "report", timestamp := 1 },
            { origName := "report", timestamp := 2 }] ++
            [{ origName := "report", timestamp := 3 }]) "report").take 2) ∧
    (∀ (fs : List BackupFile) (st : String),
      List.Sorted backupNewer (backupList fs st)) ∧
    backupList
        ((List.range 12).foldl (fun fs i => createBackup fs "report" (i + 1) 10) [])
        "report" =
      [{ origName := "report", timestamp := 12 }, { origName := "report", timestamp := 11 },
       { origName := "report", timestamp := 10 }, { origName := "report", timestamp := 9 },
       { origName := "report", timestamp := 8 }, { origName := "report", timestamp := 7 },
       { origName := "report", timestamp := 6 }, { origName := "report", timestamp := 5 },
       { origName := "report", timestamp := 4 }, { origName := "report", timestamp := 3 }] :=
  c5_backup_retention
    [{ origName := "report", timestamp := 1 }, { origName := "report", timestamp := 2 }]
    "report" 3 2 (by decide) (by decide)

/-- No preview result ever sets `requires_confirmation`. -/
lemma previewDeletion_requires_confirmation (rr : RangeResolver) (s : Sheet)
    (d : DeletionData) :
    (previewDeletion rr s d).requires_confirmation = false := by
  cases htr : d.target_rows with
  | some rows => simp [previewDeletion, htr, previewSpecificRows]
  | none =>
    cases htg : d.target_range with
    | some ref =>
        cases hr : rr s ref with
        | none => simp [previewDeletion, htr, htg, previewSpecificRange, hr]
        | some cells => simp [previewDeletion, htr, htg, previewSpecificRange, hr]
    | none =>
      cases htc : d.conditions with
      | some conds => simp [previewDeletion, htr, htg, htc, previewByConditions]
      | none =>
        cases htu : d.unique_identifier with
        | some uid => simp [previewDeletion, htr, htg, htc, htu, previewByConditions]
        | none => simp [previewDeletion, htr, htg, htc, htu]

/-- C2: a deletion request whose preview pass finds more than 50
affected rows is rejected outright — failure, no confirmation-required
outcome — and the workbook is untouched, regardless of the
`confirmation_required` flag and of whether the call was confirmed. -/
theorem c2_delete_over_limit_rejected (resolveRange : RangeResolver)
    (clearRange : RangeClear) (wb : Workbook) (d : DeletionData) (confirmed : Bool)
    (h : (deleteDataPreview resolveRange wb d).affected_rows > 50) :
    (deleteData resolveRange clearRange wb d confirmed).1.success = false ∧
    (deleteData resolveRange clearRange wb d confirmed).1.requires_confirmation = false ∧
    (deleteData resolveRange clearRange wb d confirmed).2 = wb := by
  cases hv : (validateDeletionData wb d).success with
  | false => simp [deleteData, hv]
  | true =>
    cases hg : getSheet wb d.target_sheet with
    | none =>
        simp only [deleteDataPreview, hg] at h
        simp at h
    | some s =>
        simp only [deleteDataPreview, hg] at h
        cases hp : (previewDeletion resolveRange s d).success with
        | false =>
            simp [deleteData, hv, hg, hp,
              previewDeletion_requires_confirmation resolveRange s d]
        | true => simp [deleteData, hv, hg, hp, h]

/-- Witness for C2: a conditions deletion matching 51 rows is rejected
even when confirmed. -/
theorem c2_delete_over_limit_rejected_witness :
    (deleteData (fun _ _ => Option.none) (fun s _ => (s, 0))
        [("S", { headers := ["A"], dataRows := List.replicate 51 [Value.num 1] })]
        { target_sheet := "S"
          conditions := Option.some [("A", Cond.simple (Value.num 1))] }
        true).1.success = false ∧
    (deleteData (fun _ _ => Option.none) (fun s _ => (s, 0))
        [("S", { headers := ["A"], dataRows := List.replicate 51 [Value.num 1] })]
        { target_sheet := "S"
          conditions := Option.some [("A", Cond.simple (Value.num 1))] }
        true).1.requires_confirmation = false ∧
    (deleteData (fun _ _ => Option.none) (fun s _ => (s, 0))
        [("S", { headers := ["A"], dataRows := List.replicate 51 [Value.num 1] })]
        { target_sheet := "S"
          conditions := Option.some [("A", Cond.simple (Value.num 1))] }
        true).2 =
      [("S", { headers := ["A"], dataRows := List.replicate 51 [Value.num 1] })] :=
  c2_delete_over_limit_rejected (fun _ _ => Option.none) (fun s _ => (s, 0))
    [("S", { headers := ["A"], dataRows := List.replicate 51 [Value.num 1] })]
    { target_sheet := "S"
      conditions := Option.some [("A", Cond.simple (Value.num 1))] }
    true (by decide)

/-- C1 counterexample: on a sheet whose first data row (worksheet row
2) is entirely empty and whose row 3 matches the condition `A = 1`,
`_extract_sheet_data` skips the empty row but `_delete_by_conditions`
renumbers the remaining records from row 2 (`enumerate(raw_data, 2)`),
so the confirmed call deletes worksheet row 2 — the empty row — and
the matching row survives, while the result still reports one deleted
row.  This refutes the claim that a confirmed call deletes exactly the
matched rows and no others. -/
theorem c1_counterexample :
    (deleteData (fun _ _ => Option.none) (fun s _ => (s, 0))
        [("S", { headers := ["A"], dataRows := [[Value.none], [Value.num 1]] })]
        { target_sheet := "S"
          conditions := Option.some [("A", Cond.simple (Value.num 1))] }
        true).2 =
      [("S", { headers := ["A"], dataRows := [[Value.num 1]] })] ∧
    (deleteData (fun _ _ => Option.none) (fun s _ => (s, 0))
        [("S", { headers := ["A"], dataRows := [[Value.none], [Value.num 1]] })]
        { target_sheet := "S"
          conditions := Option.some [("A", Cond.simple (Value.num 1))] }
        true).1.success = true ∧
    (deleteData (fun _ _ => Option.none) (fun s _ => (s, 0))
        [("S", { headers := ["A"], dataRows := [[Value.none], [Value.num 1]] })]
        { target_sheet := "S"
          conditions := Option.some [("A", Cond.simple (Value.num 1))] }
        true).1.affected_rows = 1 ∧
    recordMatches [("A", Cond.simple (Value.num 1))]
      (recordOf ["A"] [Value.num 1]) = true := by
  refine ⟨by decide, by decide, by decide, by decide⟩

/-- Descending-order instances for the row-number sort. -/
instance : IsTotal Nat (fun a b => b ≤ a) := ⟨fun a b => Nat.le_total b a⟩

instance : IsTrans Nat (fun a b => b ≤ a) := ⟨fun _ _ _ h1 h2 => Nat.le_trans h2 h1⟩

instance : IsAntisymm Nat (fun a b => b ≤ a) :=
  ⟨fun _ _ h1 h2 => Nat.le_antisymm h2 h1⟩

/-- `matchIdxs` over a mapped list is `matchIdxs` of the composite. -/
lemma matchIdxs_map {α β : Type} (f : α → β) (p : β → Bool) (l : List α) :
    matchIdxs p (l.map f) = matchIdxs (fun a => p (f a)) l := by
  induction l with
  | nil => rfl
  | cons a t ih => simp [matchIdxs, ih]

/-- There are as many matching positions as matching elements. -/
lemma matchIdxs_length {α : Type} (p : α → Bool) (l : List α) :
    (matchIdxs p l).length = (l.filter p).length := by
  induction l with
  | nil => rfl
  | cons a t ih =>
      cases hp : p a <;> simp [matchIdxs, List.filter_cons, hp, ih]

/-- Matching positions are strictly increasing. -/
lemma matchIdxs_sorted_lt {α : Type} (p : α → Bool) (l : List α) :
    List.Sorted (· < ·) (matchIdxs p l) := by
  induction l with
  | nil => exact List.sorted_nil
  | cons a t ih =>
      have hm : List.Sorted (· < ·) ((matchIdxs p t).map (fun i => i + 1)) := by
        rw [List.Sorted, List.pairwise_map]
        exact ih.imp (fun h => Nat.add_lt_add_right h 1)
      cases hp : p a with
      | false => simpa [matchIdxs, hp] using hm
      | true =>
          simp only [matchIdxs, hp, if_pos, List.singleton_append]
          rw [List.sorted_cons]
          refine ⟨fun b hb => ?_, hm⟩
          rcases List.mem_map.mp hb with ⟨i, -, rfl⟩
          omega

/-- Sorting a strictly increasing list in descending order reverses
it. -/
lemma sortDescNat_eq_reverse (l : List Nat) (h : List.Sorted (· < ·) l) :
    sortDescNat l = l.reverse := by
  have h1 : List.Sorted (fun a b => b ≤ a) (sortDescNat l) :=
    List.sorted_insertionSort _ l
  have h2 : List.Sorted (fun a b => b ≤ a) l.reverse := by
    rw [List.Sorted, List.pairwise_reverse]
    exact h.imp (fun hab => Nat.le_of_lt hab)
  have hperm : (sortDescNat l).Perm l.reverse :=
    (List.perm_insertionSort _ l).trans (List.reverse_perm l).symm
  exact List.eq_of_perm_of_sorted hperm h1 h2

/-- The enumerated matching row numbers are the matching positions
shifted by the enumeration start plus 2. -/
lemma enumFrom_filter_map_matchIdxs {α : Type} (p : α → Bool) (l : List α) :
    ∀ n, ((List.enumFrom n l).filter (fun q => p q.2)).map (fun q => q.1 + 2) =
      (matchIdxs p l).map (fun i => i + n + 2) := by
  induction l with
  | nil => intro n; rfl
  | cons a t ih =>
      intro n
      cases hp : p a with
      | false =>
          simp only [List.enumFrom_cons, List.filter_cons, hp, matchIdxs,
            Bool.false_eq_true, if_false, List.nil_append, ih (n + 1), List.map_map]
          apply List.map_congr_left
          intro i _
          simp only [Function.comp]
          omega
      | true =>
          simp only [List.enumFrom_cons, List.filter_cons, hp, matchIdxs, if_true,
            List.singleton_append, List.map_cons, ih (n + 1), List.map_map]
          refine congrArg₂ _ (by omega) ?_
          apply List.map_congr_left
          intro i _
          simp only [Function.comp]
          omega

/-- `matchingRowNumbers` collects the 0-based matching positions
shifted to worksheet row numbers (+2). -/
lemma matchingRowNumbers_eq (records : List Record) (conds : Conditions) :
    matchingRowNumbers records conds =
      (matchIdxs (fun r => recordMatches conds r) records).map (fun i => i + 2) := by
  have h := enumFrom_filter_map_matchIdxs (fun r => recordMatches conds r) records 0
  simpa [matchingRowNumbers, List.enum] using h

/-- Erasing only indices ≥ 1 of a cons list erases them in the tail. -/
lemma foldr_eraseIdx_succ {α : Type} (a : α) (l : List α) (m : List Nat) :
    List.foldr (fun i acc => acc.eraseIdx (i + 1)) (a :: l) m =
      a :: List.foldr (fun i acc => acc.eraseIdx i) l m := by
  induction m with
  | nil => rfl
  | cons i m' ih => simp [ih, List.eraseIdx_cons_succ]

/-- Erasing the matching positions from last to first leaves exactly
the non-matching elements. -/
lemma foldr_eraseIdx_matchIdxs {α : Type} (p : α → Bool) (l : List α) :
    List.foldr (fun i acc => acc.eraseIdx i) l (matchIdxs p l) =
      l.filter (fun a => !p a) := by
  induction l with
  | nil => rfl
  | cons a t ih =>
      cases hp : p a with
      | true =>
          simp only [matchIdxs, hp, if_true, List.singleton_append, List.foldr_cons,
            List.foldr_map, foldr_eraseIdx_succ, ih, List.eraseIdx_cons_zero,
            List.filter_cons, Bool.not_true, Bool.false_eq_true, if_false]
      | false =>
          simp only [matchIdxs, hp, Bool.false_eq_true, if_false, List.nil_append,
            List.foldr_map, foldr_eraseIdx_succ, ih, List.filter_cons, Bool.not_false,
            if_true]

/-- Deleting rows only touches the data rows. -/
lemma foldl_deleteSheetRow (ns : List Nat) (s : Sheet) :
    ns.foldl deleteSheetRow s =
      { headers := s.headers
        dataRows := ns.foldl (fun rows n => rows.eraseIdx (n - 2)) s.dataRows } := by
  induction ns generalizing s with
  | nil => rfl
  | cons n t ih => simp [List.foldl_cons, ih, deleteSheetRow]

/-- `_delete_by_conditions` on a sheet with no all-empty data row:
exactly the matching rows are removed, the call succeeds, and the
reported count is the matched-row count. -/
lemma deleteByConditions_spec (s : Sheet) (conds : Conditions)
    (hrows : ∀ row ∈ s.dataRows, recordHasData (recordOf s.headers row) = true) :
    (deleteByConditions s conds).2 =
      { headers := s.headers
        dataRows := s.dataRows.filter
          (fun row => !recordMatches conds (recordOf s.headers row)) } ∧
    (deleteByConditions s conds).1.success = true ∧
    (deleteByConditions s conds).1.affected_rows =
      ((s.dataRows.map (recordOf s.headers)).filter (recordMatches conds)).length := by
  have hextract : extractSheetData s.headers s.dataRows =
      s.dataRows.map (recordOf s.headers) := by
    rw [extractSheetData, List.filter_eq_self]
    intro r hr
    rcases List.mem_map.mp hr with ⟨row, hrow, rfl⟩
    exact hrows row hrow
  have hfm : (s.dataRows.map (recordOf s.headers)).filter (recordMatches conds) =
      (s.dataRows.filter
        (fun row => recordMatches conds (recordOf s.headers row))).map
        (recordOf s.headers) := by
    rw [List.filter_map]
    rfl
  by_cases h0 :
      ((s.dataRows.map (recordOf s.headers)).filter (recordMatches conds)).length = 0
  · -- no matching rows: the early return leaves the sheet as it is
    have hnil : (s.dataRows.map (recordOf s.headers)).filter (recordMatches conds) = [] :=
      List.length_eq_zero.mp h0
    have hall : ∀ row ∈ s.dataRows,
        recordMatches conds (recordOf s.headers row) = false := by
      intro row hrow
      have := List.filter_eq_nil_iff.mp hnil (recordOf s.headers row)
        (List.mem_map.mpr ⟨row, hrow, rfl⟩)
      simpa using this
    have hfid : s.dataRows.filter
        (fun row => !recordMatches conds (recordOf s.headers row)) = s.dataRows := by
      rw [List.filter_eq_self]
      intro row hrow
      simp [hall row hrow]
    have hbranch : deleteByConditions s conds =
        ({ success := true
           message := "No rows matched the specified conditions"
           affected_rows := 0 }, s) := by
      simp only [deleteByConditions, previewByConditions, hextract, h0]
      simp
    rw [hbranch, hfid, h0]
    exact ⟨rfl, rfl, rfl⟩
  · -- matching rows present: the bottom-up deletion loop runs
    have hmrn : matchingRowNumbers (extractSheetData s.headers s.dataRows) conds =
        (matchIdxs (fun row => recordMatches conds (recordOf s.headers row))
          s.dataRows).map (fun i => i + 2) := by
      rw [hextract, matchingRowNumbers_eq, matchIdxs_map]
    have hsortedidx : List.Sorted (· < ·)
        ((matchIdxs (fun row => recordMatches conds (recordOf s.headers row))
          s.dataRows).map (fun i => i + 2)) := by
      rw [List.Sorted, List.pairwise_map]
      exact (matchIdxs_sorted_lt _ _).imp (fun h => by omega)
    have hsort : sortDescNat
        ((matchIdxs (fun row => recordMatches conds (recordOf s.headers row))
          s.dataRows).map (fun i => i + 2)) =
        ((matchIdxs (fun row => recordMatches conds (recordOf s.headers row))
          s.dataRows).map (fun i => i + 2)).reverse :=
      sortDescNat_eq_reverse _ hsortedidx
    have hfold : (((matchIdxs
          (fun row => recordMatches conds (recordOf s.headers row))
          s.dataRows).map (fun i => i + 2)).reverse).foldl deleteSheetRow s =
        { headers := s.headers
          dataRows := s.dataRows.filter
            (fun row => !recordMatches conds (recordOf s.headers row)) } := by
      rw [foldl_deleteSheetRow]
      congr 1
      rw [← List.map_reverse, List.foldl_map, List.foldl_reverse]
      have hsimp : (fun (x : Nat) (acc : List (List Value)) =>
          acc.eraseIdx (x + 2 - 2)) = fun x acc => acc.eraseIdx x := by
        funext x acc
        rw [Nat.add_sub_cancel]
      rw [hsimp]
      exact foldr_eraseIdx_matchIdxs _ _
    have hlen : (((matchIdxs
          (fun row => recordMatches conds (recordOf s.headers row))
          s.dataRows).map (fun i => i + 2)).reverse).length =
        ((s.dataRows.map (recordOf s.headers)).filter (recordMatches conds)).length := by
      rw [List.length_reverse, List.length_map, matchIdxs_length, hfm, List.length_map]
    have hbranch : deleteByConditions s conds =
        ({ success := true
           message := "Successfully deleted " ++
             toString ((sortDescNat (matchingRowNumbers
               (extractSheetData s.headers s.dataRows) conds)).length) ++
             " rows matching conditions"
           affected_rows := (sortDescNat (matchingRowNumbers
             (extractSheetData s.headers s.dataRows) conds)).length
           deleted_data := (previewByConditions s conds).deleted_data },
         (sortDescNat (matchingRowNumbers
           (extractSheetData s.headers s.dataRows) conds)).foldl deleteSheetRow s) := by
      simp only [deleteByConditions, previewByConditions, hextract]
      rw [if_neg h0]
    refine ⟨?_, ?_, ?_⟩
    · rw [hbranch]
      show (sortDescNat (matchingRowNumbers
          (extractSheetData s.headers s.dataRows) conds)).foldl deleteSheetRow s = _
      rw [hmrn, hsort, hfold]
    · rw [hbranch]
    · rw [hbranch]
      show (sortDescNat (matchingRowNumbers
          (extractSheetData s.headers s.dataRows) conds)).length = _
      rw [hmrn, hsort, hlen]

/-- C1 amended: for a delete-by-condition request on an existing sheet
ALL OF WHOSE DATA ROWS HAVE AT LEAST ONE NON-EMPTY CELL (the proviso
the counterexample forces) and whose matched-row count is at most 50:
with `confirmation_required` set and the call unconfirmed, `delete_data`
returns a confirmation-required outcome carrying exactly the matched
rows as preview data and a prompt stating the matched-row count, and
the workbook is unchanged; a confirmed call removes exactly the
matching rows (the bottom-up deletion keeping the numbering of
unprocessed rows stable) and reports the matched count. -/
theorem c1_amended_delete_by_conditions (resolveRange : RangeResolver)
    (clearRange : RangeClear) (wb : Workbook) (d : DeletionData)
    (name : String) (s : Sheet) (conds : Conditions)
    (hdname : d.target_sheet = name)
    (hdconds : d.conditions = Option.some conds)
    (hdrows : d.target_rows = Option.none)
    (hdrange : d.target_range = Option.none)
    (hduid : d.unique_identifier = Option.none)
    (hdreq : d.confirmation_required = true)
    (hname : name ≠ "")
    (hsheet : getSheet wb name = Option.some s)
    (hrows : ∀ row ∈ s.dataRows, recordHasData (recordOf s.headers row) = true)
    (hcount :
      ((s.dataRows.map (recordOf s.headers)).filter (recordMatches conds)).length ≤ 50) :
    ((deleteData resolveRange clearRange wb d false).2 = wb ∧
     (deleteData resolveRange clearRange wb d false).1.success = false ∧
     (deleteData resolveRange clearRange wb d false).1.requires_confirmation = true ∧
     (deleteData resolveRange clearRange wb d false).1.deleted_data =
       (s.dataRows.map (recordOf s.headers)).filter (recordMatches conds) ∧
     (deleteData resolveRange clearRange wb d false).1.affected_rows =
       ((s.dataRows.map (recordOf s.headers)).filter (recordMatches conds)).length ∧
     (0 < ((s.dataRows.map (recordOf s.headers)).filter
         (recordMatches conds)).length →
       ∃ rest,
         (deleteData resolveRange clearRange wb d false).1.confirmation_prompt =
           Option.some ("This will delete " ++
             toString ((s.dataRows.map (recordOf s.headers)).filter
               (recordMatches conds)).length ++ " row(s). " ++ rest))) ∧
    ((deleteData resolveRange clearRange wb d true).2 =
       setSheet wb name
         { headers := s.headers
           dataRows := s.dataRows.filter
             (fun row => !recordMatches conds (recordOf s.headers row)) } ∧
     (deleteData resolveRange clearRange wb d true).1.success = true ∧
     (deleteData resolveRange clearRange wb d true).1.affected_rows =
       ((s.dataRows.map (recordOf s.headers)).filter (recordMatches conds)).length) := by
  have hmem : name ∈ wbSheetNames wb := by
    rcases hfind : wb.find? (fun p => p.1 == name) with - | p
    · rw [getSheet, hfind] at hsheet
      exact absurd hsheet (by simp)
    · have hp1 : p.1 = name := by
        have := List.find?_some hfind
        exact eq_of_beq this
      exact List.mem_map.mpr ⟨p, List.mem_of_find?_eq_some hfind, hp1⟩
  have hvalsucc : (validateDeletionData wb d).success = true := by
    simp [validateDeletionData, hdname, hname, hmem, hdconds, hdrows, hdrange, hduid]
  have hgs : getSheet wb d.target_sheet = Option.some s := by
    rw [hdname]; exact hsheet
  have hpreview : previewDeletion resolveRange s d = previewByConditions s conds := by
    simp [previewDeletion, hdrows, hdrange, hdconds]
  have hextract : extractSheetData s.headers s.dataRows =
      s.dataRows.map (recordOf s.headers) := by
    rw [extractSheetData, List.filter_eq_self]
    intro r hr
    rcases List.mem_map.mp hr with ⟨row, hrow, rfl⟩
    exact hrows row hrow
  have hpv : previewByConditions s conds =
      { success := true
        message := "Would delete " ++
          toString ((s.dataRows.map (recordOf s.headers)).filter
            (recordMatches conds)).length ++ " rows matching conditions"
        affected_rows := ((s.dataRows.map (recordOf s.headers)).filter
          (recordMatches conds)).length
        deleted_data := (s.dataRows.map (recordOf s.headers)).filter
          (recordMatches conds) } := by
    simp [previewByConditions, hextract]
  have h50 : ¬ ((previewByConditions s conds).affected_rows > 50) := by
    rw [hpv]
    simp only []
    omega
  have hfalse : deleteData resolveRange clearRange wb d false =
      ({ success := false
         message := "Confirmation required for deletion operation"
         requires_confirmation := true
         confirmation_prompt :=
           Option.some (confirmationPrompt (previewByConditions s conds))
         affected_rows := (previewByConditions s conds).affected_rows
         deleted_data := (previewByConditions s conds).deleted_data }, wb) := by
    simp only [deleteData, hvalsucc, Bool.not_true, Bool.false_eq_true, if_false, hgs,
      hpreview]
    rw [if_neg (by rw [hpv]; simp), if_neg h50]
    simp [hdreq]
  have htrue : deleteData resolveRange clearRange wb d true =
      ((deleteByConditions s conds).1,
        setSheet wb name (deleteByConditions s conds).2) := by
    simp only [deleteData, hvalsucc, Bool.not_true, Bool.false_eq_true, if_false, hgs,
      hpreview]
    rw [if_neg (by rw [hpv]; simp), if_neg h50]
    simp [hdreq, hdrows, hdrange, hdconds, hdname]
  have hspec := deleteByConditions_spec s conds hrows
  constructor
  · rw [hfalse]
    refine ⟨rfl, rfl, rfl, ?_, ?_, ?_⟩
    · rw [hpv]
    · rw [hpv]
    · intro hpos
      rw [hpv]
      simp only [confirmationPrompt]
      rw [if_neg (by omega)]
      exact ⟨_, by rw [String.append_assoc]⟩
  · rw [htrue]
    exact ⟨by rw [hspec.1], hspec.2.1, hspec.2.2⟩

/-- Witness for C1 at a concrete input: a 5-row sheet where condition
`A = 1` matches 3 rows — the unconfirmed call leaves the workbook
unchanged and requires confirmation for 3 rows; the confirmed call
removes exactly those 3 rows. -/
theorem c1_amended_delete_by_conditions_witness :
    (deleteData (fun _ _ => Option.none) (fun sh _ => (sh, 0))
        [("S", { headers := ["A", "B"],
                 dataRows := [[Value.num 1, Value.str "x"], [Value.num 2, Value.str "y"],
                              [Value.num 1, Value.str "z"], [Value.num 3, Value.str "w"],
                              [Value.num 1, Value.str "v"]] })]
        { target_sheet := "S"
          conditions := Option.some [("A", Cond.simple (Value.num 1))] }
        false).2 =
      [("S", { headers := ["A", "B"],
               dataRows := [[Value.num 1, Value.str "x"], [Value.num 2, Value.str "y"],
                            [Value.num 1, Value.str "z"], [Value.num 3, Value.str "w"],
                            [Value.num 1, Value.str "v"]] })] ∧
    (deleteData (fun _ _ => Option.none) (fun sh _ => (sh, 0))
        [("S", { headers := ["A", "B"],
                 dataRows := [[Value.num 1, Value.str "x"], [Value.num 2, Value.str "y"],
                              [Value.num 1, Value.str "z"], [Value.num 3, Value.str "w"],
                              [Value.num 1, Value.str "v"]] })]
        { target_sheet := "S"
          conditions := Option.some [("A", Cond.simple (Value.num 1))] }
        false).1.requires_confirmation = true ∧
    (deleteData (fun _ _ => Option.none) (fun sh _ => (sh, 0))
        [("S", { headers := ["A", "B"],
                 dataRows := [[Value.num 1, Value.str "x"], [Value.num 2, Value.str "y"],
                              [Value.num 1, Value.str "z"], [Value.num 3, Value.str "w"],
                              [Value.num 1, Value.str "v"]] })]
        { target_sheet := "S"
          conditions := Option.some [("A", Cond.simple (Value.num 1))] }
        false).1.affected_rows = 3 ∧
    (deleteData (fun _ _ => Option.none) (fun sh _ => (sh, 0))
        [("S", { headers := ["A", "B"],
                 dataRows := [[Value.num 1, Value.str "x"], [Value.num 2, Value.str "y"],
                              [Value.num 1, Value.str "z"], [Value.num 3, Value.str "w"],
                              [Value.num 1, Value.str "v"]] })]
        { target_sheet := "S"
          conditions := Option.some [("A", Cond.simple (Value.num 1))] }
        true).2 =
      [("S", { headers := ["A", "B"],
               dataRows := [[Value.num 2, Value.str "y"], [Value.num 3, Value.str "w"]] })] ∧
    (deleteData (fun _ _ => Option.none) (fun sh _ => (sh, 0))
        [("S", { headers := ["A", "B"],
                 dataRows := [[Value.num 1, Value.str "x"], [Value.num 2, Value.str "y"],
                              [Value.num 1, Value.str "z"], [Value.num 3, Value.str "w"],
                              [Value.num 1, Value.str "v"]] })]
        { target_sheet := "S"
          conditions := Option.some [("A", Cond.simple (Value.num 1))] }
        true).1.affected_rows = 3 := by
  have h := c1_amended_delete_by_conditions (fun _ _ => Option.none)
    (fun sh _ => (sh, 0))
    [("S", { headers := ["A", "B"],
             dataRows := [[Value.num 1, Value.str "x"], [Value.num 2, Value.str "y"],
                          [Value.num 1, Value.str "z"], [Value.num 3, Value.str "w"],
                          [Value.num 1, Value.str "v"]] })]
    { target_sheet := "S"
      conditions := Option.some [("A", Cond.simple (Value.num 1))] }
    "S"
    { headers := ["A", "B"],
      dataRows := [[Value.num 1, Value.str "x"], [Value.num 2, Value.str "y"],
                   [Value.num 1, Value.str "z"], [Value.num 3, Value.str "w"],
                   [Value.num 1, Value.str "v"]] }
    [("A", Cond.simple (Value.num 1))]
    rfl rfl rfl rfl rfl rfl (by decide) rfl (by decide) (by decide)
  exact ⟨h.1.1, h.1.2.2.1, h.1.2.2.2.2.1.trans (by decide),
    h.2.1.trans (by decide), h.2.2.2.trans (by decide)⟩

end TalkToExcel
